import Mathlib

set_option maxHeartbeats 1000000
set_option maxRecDepth 4000

/-!
Shallow embedding of the Project Manager agent core of
`portfolio-2026-hal-agents` (src/agents/projectManager.ts, src/utils/sandbox.ts,
src/utils/redact.ts), together with theorems settling the frozen claims.

Strings are modelled as Lean `String`/`List Char`; the JavaScript regular
expressions used by the source are translated into deterministic scanners whose
backtracking behaviour is worked out case by case (each regex in the source is
deterministic because its character classes exclude the delimiters that follow
them).  The external Supabase table is modelled as a list of ticket rows; the
tool `execute` bodies are translated as pure state-passing functions over it.
-/

namespace Hal

/-- JavaScript `\s` (ASCII fragment): space, tab, newline, carriage return,
vertical tab, form feed. -/
def isWs (c : Char) : Bool :=
  c = ' ' || c = '\t' || c = '\n' || c = '\r' || c = '\x0b' || c = '\x0c'

/-- JS `String.prototype.trim` on a character list. -/
def jsTrimList (cs : List Char) : List Char :=
  ((cs.dropWhile isWs).reverse.dropWhile isWs).reverse

/-- JS `String.prototype.trim`. -/
def jsTrim (s : String) : String := String.mk (jsTrimList s.toList)

/-- `split('/')` accumulator loop. -/
def splitSlashGo : List Char → List Char → List String
  | [], acc => [String.mk acc.reverse]
  | c :: rest, acc =>
      if c = '/' then String.mk acc.reverse :: splitSlashGo rest []
      else splitSlashGo rest (c :: acc)

/-- JS `split('/')`. -/
def splitSlash (s : String) : List String := splitSlashGo s.toList []

/-- Interior character class of `PLACEHOLDER_RE = /<[A-Za-z0-9\s\-_]+>/g`. -/
def isPlaceholderChar (c : Char) : Bool :=
  c.isAlphanum || isWs c || c = '-' || c = '_'

/-- All matches of `PLACEHOLDER_RE` (global, left to right).  A match needs a
`<`, a non-empty run of interior characters, then `>`; scanning resumes after
the `>` of a match, otherwise one character further. -/
def placeholderScanF : Nat → List Char → List (List Char)
  | 0, _ => []
  | _ + 1, [] => []
  | fuel + 1, '<' :: rest =>
      let run := rest.takeWhile isPlaceholderChar
      if run.length = 0 then placeholderScanF fuel rest
      else if (rest.drop run.length).head? = some '>' then
        ('<' :: (run ++ ['>'])) :: placeholderScanF fuel (rest.drop (run.length + 1))
      else placeholderScanF fuel rest
  | fuel + 1, _ :: rest => placeholderScanF fuel rest

/-- The scan with enough fuel for the whole input (every step of the loop
consumes at least one character). -/
def placeholderScan (cs : List Char) : List (List Char) := placeholderScanF cs.length cs

/-- `bodyMd.match(PLACEHOLDER_RE) ?? []` as a list of matched substrings. -/
def placeholderMatches (s : String) : List String :=
  (placeholderScan s.toList).map String.mk

/-- `[...new Set(xs)]`: deduplicate keeping first occurrences. -/
def dedupFirst (xs : List String) : List String :=
  xs.foldl (fun acc x => if acc.contains x then acc else acc ++ [x]) []

/-- Case-insensitive "starts with" (ASCII lowering, as the titles are ASCII). -/
def matchCI : List Char → List Char → Bool
  | [], _ => true
  | _ :: _, [] => false
  | p :: ps, c :: cs => (p.toLower == c.toLower) && matchCI ps cs

/-- Attempt the header part of the sectionContent regex
`##\s+TITLE\s*\n` at the current position (the regex is case-insensitive).
Returns the number of characters consumed up to and including the newline
matched by `\s*\n` (the greedy `\s*` backtracks to the last newline of the
whitespace run that follows the title). -/
def headerLenAt (title cs : List Char) : Option Nat :=
  match cs with
  | '#' :: '#' :: rest =>
      let ws := rest.takeWhile isWs
      if ws.length = 0 then none
      else
        let afterWs := rest.drop ws.length
        if matchCI title afterWs then
          let afterTitle := afterWs.drop title.length
          let run := afterTitle.takeWhile isWs
          let t := run.reverse.takeWhile (fun c => c != '\n')
          if t.length = run.length then none
          else some (2 + ws.length + title.length + (run.length - t.length))
        else none
  | _ => none

/-- The lazy capture `([\s\S]*?)(?=\n## |$)`: everything up to the first
occurrence of `"\n## "`, or the whole remainder. -/
def captureSection : List Char → List Char
  | [] => []
  | c :: rest =>
      if ['\n', '#', '#', ' '].isPrefixOf (c :: rest) then []
      else c :: captureSection rest

/-- Leftmost match of the sectionContent regex: returns
`(pre, header, capture, suffix)` with `body = pre ++ header ++ capture ++ suffix`. -/
def sectionFindAux (title : List Char) :
    List Char → Option (List Char × List Char × List Char × List Char)
  | [] => none
  | c :: rest =>
      match headerLenAt title (c :: rest) with
      | some n =>
          let hdr := (c :: rest).take n
          let after := (c :: rest).drop n
          let cap := captureSection after
          some ([], hdr, cap, after.drop cap.length)
      | none =>
          match sectionFindAux title rest with
          | some (pre, hdr, cap, suf) => some (c :: pre, hdr, cap, suf)
          | none => none

/-- `sectionContent` from projectManager.ts: first match's capture, trimmed;
`''` when the regex does not match. -/
def sectionContent (body sectionTitle : String) : String :=
  match sectionFindAux sectionTitle.toList body.toList with
  | some (_, _, cap, _) => String.mk (jsTrimList cap)
  | none => ""

/-- The unchecked-checkbox regex `-\s*\[\s*\]` tried at one position. -/
def checkboxAt (cs : List Char) : Bool :=
  match cs with
  | '-' :: r0 =>
      match r0.dropWhile isWs with
      | '[' :: r1 =>
          match r1.dropWhile isWs with
          | ']' :: _ => true
          | _ => false
      | _ => false
  | _ => false

/-- A scan of the test `-\s*\[\s*\]` over every position. -/
def checkboxScan : List Char → Bool
  | [] => false
  | c :: rest => checkboxAt (c :: rest) || checkboxScan rest

/-- The regex test `-\s*\[\s*\]` on a string. -/
def hasCheckbox (s : String) : Bool := checkboxScan s.toList

/-- `/^<[^>]*>$/.test s`: the whole string is one angle-bracketed block. -/
def loneAngleBlock (s : String) : Bool :=
  match s.toList with
  | '<' :: rest =>
      match rest.reverse with
      | '>' :: mid => mid.all (fun c => c != '>')
      | _ => false
  | _ => false

structure ChecklistResults where
  goal : Bool
  deliverable : Bool
  acceptanceCriteria : Bool
  constraintsNonGoals : Bool
  noPlaceholders : Bool
deriving DecidableEq

structure ReadyCheckResult where
  ready : Bool
  missingItems : List String
  checklistResults : ChecklistResults
deriving DecidableEq

/-- The five section checks of `evaluateTicketReady`, exposed separately so the
theorems can speak about them. -/
def goalSectionOf (bodyMd : String) : String :=
  sectionContent (jsTrim bodyMd) "Goal (one sentence)"

def deliverableSectionOf (bodyMd : String) : String :=
  sectionContent (jsTrim bodyMd) "Human-verifiable deliverable (UI-only)"

def acSectionOf (bodyMd : String) : String :=
  sectionContent (jsTrim bodyMd) "Acceptance criteria (UI-only)"

def constraintsSectionOf (bodyMd : String) : String :=
  sectionContent (jsTrim bodyMd) "Constraints"

def nonGoalsSectionOf (bodyMd : String) : String :=
  sectionContent (jsTrim bodyMd) "Non-goals"

def goalOkOf (bodyMd : String) : Bool :=
  let goal := goalSectionOf bodyMd
  !goal.isEmpty && (placeholderMatches goal).isEmpty && !(loneAngleBlock (jsTrim goal))

def deliverableOkOf (bodyMd : String) : Bool :=
  let d := deliverableSectionOf bodyMd
  !d.isEmpty && (placeholderMatches d).isEmpty

def acOkOf (bodyMd : String) : Bool := hasCheckbox (acSectionOf bodyMd)

def constraintsOkOf (bodyMd : String) : Bool := !(constraintsSectionOf bodyMd).isEmpty

def nonGoalsOkOf (bodyMd : String) : Bool := !(nonGoalsSectionOf bodyMd).isEmpty

def noPlaceholdersOkOf (bodyMd : String) : Bool :=
  (placeholderMatches (jsTrim bodyMd)).isEmpty

/-- `evaluateTicketReady` from projectManager.ts (lines 145-182). -/
def evaluateTicketReady (bodyMd : String) : ReadyCheckResult :=
  let body := jsTrim bodyMd
  let goalOk := goalOkOf bodyMd
  let deliverableOk := deliverableOkOf bodyMd
  let acOk := acOkOf bodyMd
  let constraintsOk := constraintsOkOf bodyMd
  let nonGoalsOk := nonGoalsOkOf bodyMd
  let placeholders := placeholderMatches body
  let noPlaceholdersOk := placeholders.isEmpty
  let missingItems : List String :=
    (if goalOk then [] else ["Goal (one sentence) missing or placeholder"]) ++
    (if deliverableOk then [] else ["Human-verifiable deliverable missing or placeholder"]) ++
    (if acOk then [] else ["Acceptance criteria checkboxes missing"]) ++
    (if constraintsOk then [] else ["Constraints section missing or empty"]) ++
    (if nonGoalsOk then [] else ["Non-goals section missing or empty"]) ++
    (if noPlaceholdersOk then [] else
      ["Unresolved placeholders: " ++ String.intercalate ", " placeholders])
  { ready := goalOk && deliverableOk && acOk && constraintsOk && nonGoalsOk && noPlaceholdersOk
    missingItems := missingItems
    checklistResults :=
      { goal := goalOk
        deliverable := deliverableOk
        acceptanceCriteria := acOk
        constraintsNonGoals := constraintsOk && nonGoalsOk
        noPlaceholders := noPlaceholdersOk } }

/-! ## Body normalization (`normalizeBodyForReady`, `normalizeTitleLineInBody`) -/

/-- The trailing `\s*$` (with the `m` flag) of the heading-normalization
regexes: the greedy `\s*` consumes the whitespace run as far as a position that
is the end of the string or sits just before a newline.  Returns the number of
whitespace characters consumed, or `none` when `$` cannot be met. -/
def wsDollarExt (cs : List Char) : Option Nat :=
  let run := cs.takeWhile isWs
  if run.length = cs.length then some run.length
  else
    let t := run.reverse.takeWhile (fun c => c != '\n')
    if t.length = run.length then none
    else some (run.length - 1 - t.length)

/-- Global multiline replace of `^LIT\s*$` by `repl` (the shape of every
pattern in `normalizeBodyForReady`).  The Boolean tracks whether the current
position is a line start. -/
def gmReplaceF (lit repl : List Char) : Nat → Bool → List Char → List Char
  | 0, _, _ => []
  | _ + 1, _, [] => []
  | fuel + 1, atStart, c :: rest =>
      if atStart && lit.isPrefixOf (c :: rest) && !lit.isEmpty then
        match wsDollarExt ((c :: rest).drop lit.length) with
        | some k => repl ++ gmReplaceF lit repl fuel false ((c :: rest).drop (lit.length + k))
        | none => c :: gmReplaceF lit repl fuel (c == '\n') rest
      else c :: gmReplaceF lit repl fuel (c == '\n') rest

/-- One `out.replace(/^LIT\s*$/gm, repl)` pass (fuel covers the whole input:
every step consumes at least one character for a non-empty literal). -/
def gmLineReplace (lit repl : String) (s : String) : String :=
  String.mk (gmReplaceF lit.toList repl.toList s.toList.length true s.toList)

/-- `normalizeBodyForReady` from projectManager.ts (lines 69-82). -/
def normalizeBodyForReady (bodyMd : String) : String :=
  let out0 := jsTrim bodyMd
  let out1 := gmLineReplace "# Goal" "## Goal (one sentence)" out0
  let out2 := gmLineReplace "# Human-verifiable deliverable"
    "## Human-verifiable deliverable (UI-only)" out1
  let out3 := gmLineReplace "# Acceptance criteria" "## Acceptance criteria (UI-only)" out2
  let out4 := gmLineReplace "# Constraints" "## Constraints" out3
  gmLineReplace "# Non-goals" "## Non-goals" out4

/-- The literal part of the Title-line regex `(- \*\*Title\*\*:\s*)(.+?)(?:\n|$)`. -/
def titleLit : List Char := "- **Title**:".toList

/-- The greedy `\s*` before the lazy `(.+?)`: the largest number of whitespace
characters that can be given up while leaving at least one non-newline
character for `.+?`. -/
def greedyWsK (afterLit : List Char) : Option Nat :=
  let run := afterLit.takeWhile isWs
  if run.length < afterLit.length then some run.length
  else
    let t := run.reverse.dropWhile (fun c => c == '\n')
    if t.length = 0 then none else some (t.length - 1)

/-- Title-line regex attempted at one position; returns
`(wsConsumed, group2, endedWithNewline, remainderAfterMatch)`. -/
def matchTitleAt (cs : List Char) : Option (List Char × List Char × Bool × List Char) :=
  if titleLit.isPrefixOf cs then
    let afterLit := cs.drop titleLit.length
    match greedyWsK afterLit with
    | none => none
    | some k =>
        let wsChars := afterLit.take k
        let rest := afterLit.drop k
        let g2 := rest.takeWhile (fun c => c != '\n')
        match rest.drop g2.length with
        | '\n' :: tail => some (wsChars, g2, true, tail)
        | other => some (wsChars, g2, false, other)
  else none

/-- Leftmost match of the Title-line regex: `(pre, ws, group2, nl, tail)`. -/
def findTitleMatch : List Char → Option (List Char × List Char × List Char × Bool × List Char)
  | [] => none
  | c :: rest =>
      match matchTitleAt (c :: rest) with
      | some (ws, g2, nl, tail) => some ([], ws, g2, nl, tail)
      | none =>
          match findTitleMatch rest with
          | some (pre, ws, g2, nl, tail) => some (c :: pre, ws, g2, nl, tail)
          | none => none

/-- `[—–-]` of the old-ID-stripping regex. -/
def isDashChar (c : Char) : Bool := c = '—' || c = '–' || c = '-'

/-- `\d{4}\s*[—–-]\s*` at the start; returns the remainder after the match. -/
def matchNumDash (cs : List Char) : Option (List Char) :=
  match cs with
  | a :: b :: c :: d :: rest =>
      if a.isDigit && b.isDigit && c.isDigit && d.isDigit then
        match rest.dropWhile isWs with
        | e :: r2 => if isDashChar e then some (r2.dropWhile isWs) else none
        | [] => none
      else none
  | _ => none

/-- `titleValue.replace( RegExp of optional 2-10 alphanumerics plus dash, then
4 digits, dash, spacing, anchored at the start, '' )`: the greedy optional
prefix tries lengths 10 down to 2 before being dropped. -/
def stripTitleIdPfx (cs : List Char) : List Char :=
  let tryLen : Nat → Option (List Char) := fun len =>
    let blk := cs.take len
    if blk.length = len && blk.all Char.isAlphanum then
      match cs.drop len with
      | '-' :: rest => matchNumDash rest
      | _ => none
    else none
  let attempt := [10, 9, 8, 7, 6, 5, 4, 3, 2].foldl
    (fun acc len => match acc with | some r => some r | none => tryLen len) none
  match attempt with
  | some r => r
  | none =>
      match matchNumDash cs with
      | some r => r
      | none => cs

/-- `normalizeTitleLineInBody` from projectManager.ts (lines 95-114). -/
def normalizeTitleLineInBody (bodyMd ticketId : String) : String :=
  if bodyMd.isEmpty || ticketId.isEmpty then bodyMd
  else
    match findTitleMatch bodyMd.toList with
    | none => bodyMd
    | some (pre, ws, g2, nl, tail) =>
        let titleValue := stripTitleIdPfx (jsTrimList g2)
        let normalizedLine :=
          titleLit ++ ws ++ ticketId.toList ++ " — ".toList ++ titleValue ++
            (if nl then ['\n'] else [])
        String.mk (pre ++ normalizedLine ++ tail)

/-! ## Identifier helpers -/

/-- `String(n).padStart(4, '0')`. -/
def padStart4 (n : Nat) : String :=
  let s := toString n
  String.mk (List.replicate (4 - s.length) '0') ++ s

theorem len_dropWhile_le {α : Type} (p : α → Bool) (l : List α) :
    (l.dropWhile p).length ≤ l.length := by
  induction l with
  | nil => exact Nat.le_refl _
  | cons a l ih =>
      by_cases h : p a
      · simp only [List.dropWhile, h]
        exact Nat.le_succ_of_le ih
      · simp [List.dropWhile, h]

/-- `\s+` runs replaced by a single hyphen. -/
def wsRunsToHyphenF : Nat → List Char → List Char
  | 0, _ => []
  | _ + 1, [] => []
  | fuel + 1, c :: rest =>
      if isWs c then '-' :: wsRunsToHyphenF fuel (rest.dropWhile isWs)
      else c :: wsRunsToHyphenF fuel rest

def wsRunsToHyphen (cs : List Char) : List Char := wsRunsToHyphenF cs.length cs

/-- `-+` runs collapsed to a single hyphen. -/
def collapseHyphensF : Nat → List Char → List Char
  | 0, _ => []
  | _ + 1, [] => []
  | fuel + 1, c :: rest =>
      if c = '-' then '-' :: collapseHyphensF fuel (rest.dropWhile (fun x => x == '-'))
      else c :: collapseHyphensF fuel rest

def collapseHyphens (cs : List Char) : List Char := collapseHyphensF cs.length cs

/-- `^-` and `-$` each removed once (the global regex with the two anchored
alternatives matches at most once at each end). -/
def stripEdgeHyphens (cs : List Char) : List Char :=
  let cs1 := match cs with | '-' :: rest => rest | other => other
  match cs1.reverse with
  | '-' :: r => r.reverse
  | _ => cs1

/-- `[a-z0-9-]` (kept characters of the slug). -/
def isSlugKeep (c : Char) : Bool := ('a' ≤ c && c ≤ 'z') || c.isDigit || c = '-'

/-- `slugFromTitle` from projectManager.ts (lines 26-34). -/
def slugFromTitle (title : String) : String :=
  let cs0 := (jsTrimList title.toList).map Char.toLower
  let cs1 := wsRunsToHyphen cs0
  let cs2 := cs1.filter isSlugKeep
  let cs3 := collapseHyphens cs2
  let cs4 := stripEdgeHyphens cs3
  if cs4.isEmpty then "ticket" else String.mk cs4

/-- `[a-z0-9]` after lowering. -/
def isLowerAlnum (c : Char) : Bool := ('a' ≤ c && c ≤ 'z') || c.isDigit

/-- Maximal `[a-z0-9]` runs: `split(non-alphanumeric-run).filter(Boolean)`. -/
def alnumRunsF : Nat → List Char → List (List Char)
  | 0, _ => []
  | _ + 1, [] => []
  | fuel + 1, c :: rest =>
      if isLowerAlnum c then
        (c :: rest.takeWhile isLowerAlnum) ::
          alnumRunsF fuel (rest.drop (rest.takeWhile isLowerAlnum).length)
      else alnumRunsF fuel rest

def alnumRuns (cs : List Char) : List (List Char) := alnumRunsF cs.length cs

/-- Does the token contain a letter (`[a-z]` test after lowering)? -/
def hasLowerLetter (t : List Char) : Bool := t.any (fun c => 'a' ≤ c && c ≤ 'z')

/-- `repoHintPrefix` from projectManager.ts (lines 42-57). -/
def repoHintPfx (repoFullName : String) : String :=
  let repo := ((splitSlash repoFullName).reverse).headD repoFullName
  let tokens := alnumRuns (repo.toList.map Char.toLower)
  match tokens.reverse.find? (fun t =>
      hasLowerLetter t && decide (2 ≤ t.length) && decide (t.length ≤ 6)) with
  | some t => String.mk (t.map Char.toUpper)
  | none =>
      let letters := (repo.toList.filter (fun c => c.isAlpha)).map Char.toUpper
      if letters.isEmpty then "PRJ" else String.mk (letters.take 4)

/-- The last maximal digit run of the character list. -/
def lastDigitRun (cs : List Char) : List Char :=
  ((cs.reverse.dropWhile (fun c => !c.isDigit)).takeWhile Char.isDigit).reverse

/-- `parseInt` on a non-empty digit-only string. -/
def digitsToNat (ds : List Char) : Nat :=
  ds.foldl (fun a c => a * 10 + (c.toNat - '0'.toNat)) 0

/-- `parseTicketNumber` from projectManager.ts (lines 59-66): the regex
matches the last at-most-four digits of the final digit run (the negative
lookahead forbids any later digit, so the match sits at the end of the last
run, and the greedy `{1,4}` takes as many of its final digits as it can). -/
def parseTicketNumber (ref : String) : Option Nat :=
  let s := jsTrimList ref.toList
  if s.isEmpty then none
  else
    let run := lastDigitRun s
    if run.isEmpty then none
    else some (digitsToNat (run.drop (run.length - 4)))

/-! ## Backing-store model

Modelled from the spec: the relational `tickets` table of the external backing
store (the store itself is out of scope of the repository).  A state is the
list of rows; filter/order/limit/insert/update queries are translated to pure
list operations, and the store is assumed healthy (modern schema, no
query-level failures), so the legacy "column does not exist" fallbacks of the
source are dead branches in this model. -/

structure Ticket where
  pk : Nat
  repo_full_name : Option String
  ticket_number : Nat
  display_id : Option String
  id : String
  filename : String
  title : String
  body_md : String
  kanban_column_id : Option String
  kanban_position : Nat
  kanban_moved_at : String
deriving DecidableEq

abbrev Store := List Ticket

/-- `.eq('repo_full_name', repo).eq('ticket_number', n).maybeSingle()`. -/
def findTicketByRepoNumber (st : Store) (repo : String) (n : Nat) : Option Ticket :=
  st.find? (fun t => t.repo_full_name == some repo && t.ticket_number == n)

/-- Legacy lookup `.eq('id', normalizedId).maybeSingle()`. -/
def findTicketById (st : Store) (id : String) : Option Ticket :=
  st.find? (fun t => t.id == id)

/-- Max `kanban_position` among To-Do rows of one repository, with the
`reduce(..., 0)` floor of the source (query ordered descending, limit 1). -/
def maxTodoPositionRepo (st : Store) (repo : String) : Nat :=
  st.foldl (fun acc t =>
    if t.kanban_column_id == some "col-todo" && t.repo_full_name == some repo then
      max acc t.kanban_position
    else acc) 0

/-- Same without the repository filter (legacy / no-project branch). -/
def maxTodoPositionAll (st : Store) : Nat :=
  st.foldl (fun acc t =>
    if t.kanban_column_id == some "col-todo" then max acc t.kanban_position else acc) 0

/-- Max `ticket_number` of a repository, `none` when it has no rows
(query ordered descending, limit 1). -/
def maxTicketNumber (st : Store) (repo : String) : Option Nat :=
  st.foldl (fun acc t =>
    if t.repo_full_name == some repo then
      some (max (acc.getD 0) t.ticket_number)
    else acc) none

/-- SQL `update ... where pk = pk0` as a map over the rows. -/
def updateTicketByPk (st : Store) (pk0 : Nat) (f : Ticket → Ticket) : Store :=
  st.map (fun t => if t.pk == pk0 then f t else t)

/-- SQL `update ... where repo_full_name = repo and ticket_number = n`. -/
def updateTicketByRepoNumber (st : Store) (repo : String) (n : Nat) (f : Ticket → Ticket) : Store :=
  st.map (fun t =>
    if t.repo_full_name == some repo && t.ticket_number == n then f t else t)

/-! ## Ticket tools (state-passing translations of the tool `execute` bodies) -/

/-- The JS guard `if (!ticketNumber)`: `parseTicketNumber` produced `null` or `0`. -/
def ticketNumberFalsy (o : Option Nat) : Bool := o.getD 0 == 0

inductive MoveResult
  | success (ticketId fromColumn toColumn : String)
  | failure (error : String)
deriving DecidableEq

/-- `kanban_move_ticket_to_todo` tool (projectManager.ts lines 1205-1350).
`cfgRepo` is the trimmed `config.projectId` (`""` when no project is set);
`now` stands for `new Date().toISOString()`. -/
def kanban_move_ticket_to_todo (st : Store) (cfgRepo ticket_id now : String) :
    MoveResult × Store :=
  let ticketNumber := parseTicketNumber ticket_id
  let normalizedId := padStart4 (ticketNumber.getD 0)
  if ticketNumberFalsy ticketNumber then
    (.failure ("Could not parse ticket number from \"" ++ ticket_id ++ "\"."), st)
  else
    let row := if cfgRepo != "" then findTicketByRepoNumber st cfgRepo (ticketNumber.getD 0)
               else findTicketById st normalizedId
    match row with
    | none => (.failure ("Ticket " ++ normalizedId ++ " not found."), st)
    | some row =>
        let currentCol := row.kanban_column_id
        if !(currentCol == some "col-unassigned" || currentCol == none || currentCol == some "") then
          (.failure ("Ticket is not in Unassigned (current column: " ++ currentCol.getD "null" ++
            "). Only tickets in Unassigned can be moved to To Do."), st)
        else
          let maxPos := if cfgRepo != "" then maxTodoPositionRepo st cfgRepo
                        else maxTodoPositionAll st
          let newPosition := maxPos + 1
          (.success normalizedId "col-unassigned" "col-todo",
           updateTicketByPk st row.pk (fun t =>
             { t with kanban_column_id := some "col-todo"
                      kanban_position := newPosition
                      kanban_moved_at := now }))

inductive CrossMoveResult
  | success (ticketId display_id fromRepo toRepo fromColumn toColumn : String)
  | failure (error : String)
deriving DecidableEq

/-- `kanban_move_ticket_to_other_repo_todo` tool (projectManager.ts lines
1532-1755).  The target-repository existence check of the source accepts every
healthy query result (zero rows included), so it cannot fail in this model. -/
def kanban_move_ticket_to_other_repo_todo (st : Store)
    (cfgRepo ticket_id target_repo_full_name now : String) : CrossMoveResult × Store :=
  let ticketNumber := parseTicketNumber ticket_id
  let normalizedId := padStart4 (ticketNumber.getD 0)
  let targetRepo := jsTrim target_repo_full_name
  if ticketNumberFalsy ticketNumber then
    (.failure ("Could not parse ticket number from \"" ++ ticket_id ++ "\"."), st)
  else if targetRepo == "" || !(targetRepo.toList.contains '/') then
    (.failure ("Invalid target repository format. Expected \"owner/repo\", got \"" ++
      targetRepo ++ "\"."), st)
  else
    let row := if cfgRepo != "" then findTicketByRepoNumber st cfgRepo (ticketNumber.getD 0)
               else findTicketById st normalizedId
    match row with
    | none => (.failure ("Ticket " ++ ticket_id ++ " not found."), st)
    | some row =>
        let currentCol := row.kanban_column_id.getD "col-unassigned"
        let currentRepo := row.repo_full_name.getD "legacy/unknown"
        let nextTicketNumber := match maxTicketNumber st targetRepo with
          | some m => m + 1
          | none => ticketNumber.getD 0
        let nextTodoPosition := maxTodoPositionRepo st targetRepo + 1
        let newDisplayId := repoHintPfx targetRepo ++ "-" ++ padStart4 nextTicketNumber
        (.success normalizedId newDisplayId currentRepo targetRepo currentCol "col-todo",
         updateTicketByPk st row.pk (fun t =>
           { t with repo_full_name := some targetRepo
                    ticket_number := nextTicketNumber
                    display_id := some newDisplayId
                    kanban_column_id := some "col-todo"
                    kanban_position := nextTodoPosition
                    kanban_moved_at := now
                    body_md := if t.body_md.isEmpty then t.body_md
                               else normalizeTitleLineInBody t.body_md newDisplayId }))

inductive FetchResult
  | success (id : String) (display_id : Option String) (ticket_number : Option Nat)
      (repo_full_name : Option String) (title body_md : String)
      (kanban_column_id : Option String)
  | failure (error : String)
deriving DecidableEq

/-- `fetch_ticket_content` tool (projectManager.ts lines 921-1015); read-only. -/
def fetch_ticket_content (st : Store) (cfgRepo ticket_id : String) : FetchResult :=
  let ticketNumber := parseTicketNumber ticket_id
  let normalizedId := padStart4 (ticketNumber.getD 0)
  if ticketNumberFalsy ticketNumber then
    .failure ("Could not parse ticket number from \"" ++ ticket_id ++ "\".")
  else if cfgRepo != "" then
    match findTicketByRepoNumber st cfgRepo (ticketNumber.getD 0) with
    | some r => .success r.id r.display_id (some r.ticket_number) r.repo_full_name
        r.title r.body_md r.kanban_column_id
    | none => .failure ("Ticket " ++ normalizedId ++
        " not found in Supabase. Supabase-only mode requires Supabase connection.")
  else
    match findTicketById st normalizedId with
    | some r => .success r.id none none none r.title r.body_md r.kanban_column_id
    | none => .failure ("Ticket " ++ normalizedId ++
        " not found in Supabase. Supabase-only mode requires Supabase connection.")

inductive UpdateResult
  | success (ticketId : String) (ready : Bool) (missingItems : List String)
  | failure (error : String) (detectedPlaceholders : Option (List String))
deriving DecidableEq

/-- `update_ticket_body` tool (projectManager.ts lines 1050-1152). -/
def update_ticket_body (st : Store) (cfgRepo ticket_id body_md : String) :
    UpdateResult × Store :=
  let bodyMdTrimmed0 := jsTrim body_md
  let placeholders := placeholderMatches bodyMdTrimmed0
  if !placeholders.isEmpty then
    let uniquePlaceholders := dedupFirst placeholders
    (.failure ("Ticket update rejected: unresolved template placeholder tokens detected. Detected placeholders: "
        ++ String.intercalate ", " uniquePlaceholders
        ++ ". Replace all angle-bracket placeholders with concrete content before updating the ticket.")
      (some uniquePlaceholders), st)
  else
    let bodyMdTrimmed := normalizeBodyForReady bodyMdTrimmed0
    let ticketNumber := parseTicketNumber ticket_id
    let normalizedId := padStart4 (ticketNumber.getD 0)
    if ticketNumberFalsy ticketNumber then
      (.failure ("Could not parse ticket number from \"" ++ ticket_id ++ "\".") none, st)
    else
      let row := if cfgRepo != "" then findTicketByRepoNumber st cfgRepo (ticketNumber.getD 0)
                 else findTicketById st normalizedId
      match row with
      | none => (.failure ("Ticket " ++ normalizedId ++ " not found.") none, st)
      | some row =>
          let displayId := row.display_id.getD normalizedId
          let normalizedBodyMd := normalizeTitleLineInBody bodyMdTrimmed displayId
          let normalizedPlaceholders := placeholderMatches normalizedBodyMd
          if !normalizedPlaceholders.isEmpty then
            let uniquePlaceholders := dedupFirst normalizedPlaceholders
            (.failure ("Ticket update rejected: unresolved template placeholder tokens detected after normalization. Detected placeholders: "
                ++ String.intercalate ", " uniquePlaceholders
                ++ ". Replace all angle-bracket placeholders with concrete content before updating the ticket.")
              (some uniquePlaceholders), st)
          else
            let readiness := evaluateTicketReady normalizedBodyMd
            (.success normalizedId readiness.ready readiness.missingItems,
             updateTicketByPk st row.pk (fun t => { t with body_md := normalizedBodyMd }))

/-! ## create_ticket -/

def MAX_CREATE_TICKET_RETRIES : Nat := 10

/-- `startNum` of create_ticket (lines 696-699): one past the repository's
maximum sequence number, or 1 when the repository has no rows. -/
def nextStartNum : Option Nat → Nat
  | some m => m + 1
  | none => 1

inductive InsertOutcome
  | ok
  | uniqueViolation (msg : String)
  | otherError (msg : String)
deriving DecidableEq

structure CreateOkInfo where
  ticket_number : Nat
  retried : Bool
  attempts : Nat
deriving DecidableEq

inductive RetryLoopResult
  | success (r : CreateOkInfo)
  | failure (error : String)
deriving DecidableEq

/-- The create_ticket retry loop (lines 703-892) with the store insert
abstracted as an outcome function (the insert outcome is decided by the
external store, including interference from concurrent writers).  `attempts`
enumerates the loop counter values still to be tried; `lastMsg` is
`lastInsertError?.message ?? 'unknown'`. -/
def createTicketRetryGo (insert : Nat → InsertOutcome) (startNum : Nat) :
    List Nat → String → RetryLoopResult
  | [], lastMsg =>
      .failure ("Could not reserve a ticket ID after " ++ toString MAX_CREATE_TICKET_RETRIES ++
        " attempts (id/filename collision). Last: " ++ lastMsg)
  | a :: restAttempts, _ =>
      match insert (startNum + a - 1) with
      | .ok => .success ⟨startNum + a - 1, decide (1 < a), a⟩
      | .uniqueViolation m => createTicketRetryGo insert startNum restAttempts m
      | .otherError m => .failure ("Supabase insert: " ++ m)

/-- The whole retry loop: attempts 1..10, initial last message `'unknown'`. -/
def createTicketRetryLoop (insert : Nat → InsertOutcome) (startNum : Nat) : RetryLoopResult :=
  createTicketRetryGo insert startNum (List.range' 1 MAX_CREATE_TICKET_RETRIES) "unknown"

/-- Modelled from the spec: the store's uniqueness constraints — an insert
fails with a unique violation exactly when the repo-scoped sequence number,
the legacy string id, or the filename collides with an existing row
("on a uniqueness conflict (duplicate sequence number or filename)"). -/
def insertConflict (st : Store) (repo : String) (candidateNum : Nat) (id filename : String) : Bool :=
  st.any (fun t =>
    (t.repo_full_name == some repo && t.ticket_number == candidateNum) ||
    t.id == id || t.filename == filename)

/-- The fixed text of a unique-violation message in this model. -/
def dupKeyMsg : String := "duplicate key value violates unique constraint"

/-- The bullet-line test `^[\s]*[-*+]\s+` (multiline) tried at one line start. -/
def bulletMatchAt (cs : List Char) : Option (List Char × Bool × List Char) :=
  match cs.drop (cs.takeWhile isWs).length with
  | b :: r1 =>
      if b = '-' || b = '*' || b = '+' then
        if (r1.takeWhile isWs).length = 0 then none
        else some (cs.takeWhile isWs, (r1.takeWhile isWs).getLast? == some '\n',
          r1.drop (r1.takeWhile isWs).length)
      else none
  | [] => none

theorem bulletMatchAt_shrinks {cs a r} {b : Bool}
    (h : bulletMatchAt cs = some (a, b, r)) : r.length < cs.length := by
  unfold bulletMatchAt at h
  split at h
  case h_2 => simp at h
  case h_1 x r1 hd =>
    split at h
    · split at h
      · simp at h
      · rename_i hw
        simp only [Option.some.injEq, Prod.mk.injEq] at h
        obtain ⟨-, -, hr⟩ := h
        subst hr
        have h1 := congrArg List.length hd
        simp only [List.length_drop, List.length_cons] at h1
        simp only [List.length_drop]
        omega
    · simp at h

/-- `acSection.replace(bullet-line regex, '$1- [ ] ')` (global, multiline):
each matched leading-whitespace-plus-bullet-marker is rewritten to the
whitespace followed by `- [ ] `. -/
def bulletFixF : Nat → Bool → List Char → List Char
  | 0, _, _ => []
  | _ + 1, _, [] => []
  | fuel + 1, atStart, c :: rest =>
      match (if atStart then bulletMatchAt (c :: rest) else none) with
      | some (ws1, nextStart, rest') =>
          ws1 ++ "- [ ] ".toList ++ bulletFixF fuel nextStart rest'
      | none => c :: bulletFixF fuel (c == '\n') rest

/-- The bullet-conversion pass on the Acceptance-criteria section text
(a bullet match always consumes at least one character, so the input length is
enough fuel). -/
def fixedAcOf (acSection : String) : String :=
  String.mk (bulletFixF acSection.toList.length true acSection.toList)

/-- The bullet-line *test* (does any line carry a plain bullet?). -/
def bulletTestGo : Bool → List Char → Bool
  | _, [] => false
  | atStart, c :: rest =>
      (atStart && (bulletMatchAt (c :: rest)).isSome) || bulletTestGo (c == '\n') rest

def hasBulletLine (s : String) : Bool := bulletTestGo true s.toList

/-- `finalBodyMd.replace(acRegex, '$1' + fixedAc + newline)`: the capture of the
Acceptance-criteria section is replaced by the fixed text plus a newline; the
leading group (header through its newline) and the lookahead suffix stay. -/
def replaceAcSection (body fixedAc : String) : Option String :=
  match sectionFindAux ("Acceptance criteria (UI-only)".toList) body.toList with
  | some (pre, hdr, _, suf) => some (String.mk (pre ++ hdr ++ fixedAc.toList ++ ['\n'] ++ suf))
  | none => none

/-- `update ... where id = id0`. -/
def updateTicketById (st : Store) (id0 : String) (f : Ticket → Ticket) : Store :=
  st.map (fun t => if t.id == id0 then f t else t)

structure CreateOkResult where
  id : String
  display_id : String
  ticket_number : Nat
  repo_full_name : String
  filename : String
  filePath : String
  retried : Bool
  attempts : Nat
  ready : Bool
  missingItems : List String
  autoFixed : Bool
  movedToTodo : Bool
  moveError : Option String
deriving DecidableEq

inductive CreateTicketResult
  | ok (r : CreateOkResult)
  | err (error : String) (detectedPlaceholders : Option (List String))
deriving DecidableEq

/-- One pass of the create_ticket insert loop over the concrete store model
(lines 703-892): try each attempt's candidate number, skipping candidates that
collide, and on the first non-colliding candidate insert the row, run the
auto-fix pass, and auto-move the ticket to To Do when it is ready. -/
def createTicketAttemptGo (st : Store) (repoFullName pfx slug now bodyMdTrimmed titleTrimmed : String)
    (newPk startNum : Nat) : List Nat → String → CreateTicketResult × Store
  | [], lastMsg =>
      (.err ("Could not reserve a ticket ID after " ++ toString MAX_CREATE_TICKET_RETRIES ++
        " attempts (id/filename collision). Last: " ++ lastMsg) none, st)
  | a :: restAttempts, _ =>
      let candidateNum := startNum + a - 1
      let id := padStart4 candidateNum
      let displayId := pfx ++ "-" ++ id
      let filename := id ++ "-" ++ slug ++ ".md"
      let filePath := "supabase:tickets/" ++ displayId
      let normalizedBodyMd := normalizeTitleLineInBody bodyMdTrimmed displayId
      let normalizedPlaceholders := placeholderMatches normalizedBodyMd
      if !normalizedPlaceholders.isEmpty then
        let uniquePlaceholders := dedupFirst normalizedPlaceholders
        (.err ("Ticket creation rejected: unresolved template placeholder tokens detected after normalization. Detected placeholders: "
            ++ String.intercalate ", " uniquePlaceholders
            ++ ". Replace all angle-bracket placeholders with concrete content before creating the ticket.")
          (some uniquePlaceholders), st)
      else if insertConflict st repoFullName candidateNum id filename then
        createTicketAttemptGo st repoFullName pfx slug now bodyMdTrimmed titleTrimmed newPk startNum
          restAttempts dupKeyMsg
      else
        let inserted : Ticket :=
          { pk := newPk
            repo_full_name := some repoFullName
            ticket_number := candidateNum
            display_id := some displayId
            id := id
            filename := filename
            title := titleTrimmed
            body_md := normalizedBodyMd
            kanban_column_id := some "col-unassigned"
            kanban_position := 0
            kanban_moved_at := now }
        let st1 := st ++ [inserted]
        let readiness0 := evaluateTicketReady normalizedBodyMd
        let repoScoped := repoFullName != "legacy/unknown" && candidateNum != 0
        let fixed : String × ReadyCheckResult × Bool × Store :=
          if readiness0.ready then (normalizedBodyMd, readiness0, false, st1)
          else
            let acSection := sectionContent normalizedBodyMd "Acceptance criteria (UI-only)"
            if !acSection.isEmpty && !(hasCheckbox acSection) && hasBulletLine acSection then
              match replaceAcSection normalizedBodyMd (fixedAcOf acSection) with
              | some newBody =>
                  let readiness1 := evaluateTicketReady newBody
                  let st2 :=
                    if readiness1.ready then
                      if repoScoped then
                        updateTicketByRepoNumber st1 repoFullName candidateNum
                          (fun t => { t with body_md := newBody })
                      else updateTicketById st1 id (fun t => { t with body_md := newBody })
                    else st1
                  (newBody, readiness1, true, st2)
              | none => (normalizedBodyMd, readiness0, false, st1)
            else (normalizedBodyMd, readiness0, false, st1)
        let readiness := fixed.2.1
        let autoFixed := fixed.2.2.1
        let st2 := fixed.2.2.2
        let moved : Bool × Option String × Store :=
          if readiness.ready then
            let nextTodoPosition :=
              (if repoFullName != "legacy/unknown" then maxTodoPositionRepo st2 repoFullName
               else maxTodoPositionAll st2) + 1
            let st3 :=
              if repoScoped then
                updateTicketByRepoNumber st2 repoFullName candidateNum (fun t =>
                  { t with kanban_column_id := some "col-todo"
                           kanban_position := nextTodoPosition
                           kanban_moved_at := now })
              else
                updateTicketById st2 id (fun t =>
                  { t with kanban_column_id := some "col-todo"
                           kanban_position := nextTodoPosition
                           kanban_moved_at := now })
            (true, none, st3)
          else (false, none, st2)
        (.ok
          { id := id
            display_id := displayId
            ticket_number := candidateNum
            repo_full_name := repoFullName
            filename := filename
            filePath := filePath
            retried := decide (1 < a)
            attempts := a
            ready := readiness.ready
            missingItems := readiness.missingItems
            autoFixed := autoFixed
            movedToTodo := moved.1
            moveError := moved.2.1 }, moved.2.2)

/-- The repository scope of create_ticket:
`config.projectId?.trim() || 'legacy/unknown'`. -/
def createRepoOf (projectId : Option String) : String :=
  match projectId with
  | some p => if jsTrim p != "" then jsTrim p else "legacy/unknown"
  | none => "legacy/unknown"

/-- `create_ticket` tool (projectManager.ts lines 624-901), modern-schema
store; `projectId` is `config.projectId`, `newPk` stands for the random UUID
of the single successful insert, `now` for `new Date().toISOString()`. -/
def create_ticket (st : Store) (projectId : Option String) (title body_md now : String)
    (newPk : Nat) : CreateTicketResult × Store :=
  let bodyMdTrimmed0 := jsTrim body_md
  let placeholders := placeholderMatches bodyMdTrimmed0
  if !placeholders.isEmpty then
    let uniquePlaceholders := dedupFirst placeholders
    (.err ("Ticket creation rejected: unresolved template placeholder tokens detected. Detected placeholders: "
        ++ String.intercalate ", " uniquePlaceholders
        ++ ". Replace all angle-bracket placeholders with concrete content before creating the ticket.")
      (some uniquePlaceholders), st)
  else
    let bodyMdTrimmed := normalizeBodyForReady bodyMdTrimmed0
    let repoFullName := createRepoOf projectId
    let pfx := repoHintPfx repoFullName
    let startNum := nextStartNum (maxTicketNumber st repoFullName)
    let slug := slugFromTitle title
    createTicketAttemptGo st repoFullName pfx slug now bodyMdTrimmed (jsTrim title) newPk startNum
      (List.range' 1 MAX_CREATE_TICKET_RETRIES) "unknown"

/-! ## Path sandbox (src/utils/sandbox.ts), POSIX `path` semantics -/

/-- JS `String.prototype.startsWith`. -/
def jsStartsWith (s pre : String) : Bool := pre.toList.isPrefixOf s.toList

/-- `path.isAbsolute` (POSIX). -/
def isAbsolutePath (s : String) : Bool := jsStartsWith s "/"

/-- POSIX path normalization over segments: empty and `.` segments vanish,
`..` pops (and is absorbed at the root of an absolute path). -/
def normSegs (segs : List String) : List String :=
  segs.foldl (fun acc seg =>
    if seg = "" || seg = "." then acc
    else if seg = ".." then acc.dropLast
    else acc ++ [seg]) []

/-- Segments of a path string (`split('/')`). -/
def pathSegs (s : String) : List String := splitSlash s

/-- `'/'.join` of segments. -/
def joinSlash : List String → String
  | [] => ""
  | [s] => s
  | s :: rest => s ++ "/" ++ joinSlash rest

/-- Segment list of `path.resolve(root, p)` for an absolute `root` (POSIX). -/
def resolveSegs (root p : String) : List String :=
  if isAbsolutePath p then normSegs (pathSegs p)
  else normSegs (pathSegs root ++ pathSegs p)

/-- `path.resolve(root, p)` for an absolute `root` (POSIX). -/
def resolvePath (root p : String) : String := "/" ++ joinSlash (resolveSegs root p)

/-- `path.relative` segment computation on two resolved segment lists (POSIX):
strip the common prefix, then one `..` per remaining source segment followed
by the remaining target segments. -/
def relativeSegs : List String → List String → List String
  | f :: fs, t :: ts =>
      if f = t then relativeSegs fs ts
      else List.replicate (fs.length + 1) ".." ++ (t :: ts)
  | [], ts => ts
  | fs, [] => List.replicate fs.length ".."

/-- `sandboxPath` from src/utils/sandbox.ts (lines 8-16).  `path.relative`
resolves both of its arguments and compares segment lists; resolution is
idempotent on the already-resolved paths the source passes it, so the model
hands the segment lists to the comparison directly. -/
def sandboxPath (repoRoot relativeOrAbsolute : String) : Option String :=
  let candidate := if relativeOrAbsolute = "" then "." else relativeOrAbsolute
  let absSegs := resolveSegs repoRoot candidate
  let rootSegs := resolveSegs repoRoot "."
  let relative := joinSlash (relativeSegs rootSegs absSegs)
  if jsStartsWith relative ".." || isAbsolutePath relative then none
  else some (resolvePath repoRoot candidate)

/-! ## Redactor (src/utils/redact.ts, the SENSITIVE_KEYS variant) -/

inductive JsonValue
  | str (s : String)
  | num (n : Int)
  | bool (b : Bool)
  | null
  | arr (xs : List JsonValue)
  | obj (fields : List (String × JsonValue))

/-- `[a-zA-Z0-9_-]`, the class of the OpenAI-key and JWT patterns. -/
def isKeyChar (c : Char) : Bool := c.isAlphanum || c = '_' || c = '-'

/-- `[a-zA-Z0-9-]`, the subdomain-label class of the Supabase-URL pattern. -/
def isLabelChar (c : Char) : Bool := c.isAlphanum || c = '-'

/-- `OPENAI_KEY_PATTERN = sk- then 20 or more key characters` attempted with
first character `c`; returns the number of characters consumed beyond `c`. -/
def openaiKeyMatch (c : Char) (rest : List Char) : Option Nat :=
  if c = 's' then
    match rest with
    | 'k' :: '-' :: r =>
        let run := r.takeWhile isKeyChar
        if 20 ≤ run.length then some (2 + run.length) else none
    | _ => none
  else none

/-- `JWT_PATTERN = eyJ then three dot-separated key-character runs` attempted
with first character `c`; the runs stop at the dots deterministically because
the class excludes the dot. -/
def jwtMatch (c : Char) (rest : List Char) : Option Nat :=
  if c = 'e' then
    match rest with
    | 'y' :: 'J' :: r =>
        let r1 := r.takeWhile isKeyChar
        if r1.length = 0 then none
        else
          match r.drop r1.length with
          | '.' :: r' =>
              let r2 := r'.takeWhile isKeyChar
              if r2.length = 0 then none
              else
                match r'.drop r2.length with
                | '.' :: r'' =>
                    let r3 := r''.takeWhile isKeyChar
                    if r3.length = 0 then none
                    else some (2 + r1.length + 1 + r2.length + 1 + r3.length)
                | _ => none
          | _ => none
    | _ => none
  else none

/-- The trailing `(\/[a-zA-Z0-9_-]*)*` of the Supabase-URL pattern: total
length of the consumed path segments. -/
def pathSegsLenF : Nat → List Char → Nat
  | 0, _ => 0
  | fuel + 1, cs =>
      match cs with
      | '/' :: rest =>
          1 + (rest.takeWhile isKeyChar).length +
            pathSegsLenF fuel (rest.drop (rest.takeWhile isKeyChar).length)
      | _ => 0

def pathSegsLen (cs : List Char) : Nat := pathSegsLenF cs.length cs

/-- `SUPABASE_URL_PATTERN` (case-insensitive) matched against a full suffix:
`https://`, an optional single subdomain label plus dot, `supabase.co`, then
path segments.  Returns the total number of characters consumed. -/
def supabaseMatchFull (cs : List Char) : Option Nat :=
  if matchCI ("https://".toList) cs then
    let rest := cs.drop 8
    let run := rest.takeWhile isLabelChar
    let withLabel : Option Nat :=
      if run.length = 0 then none
      else
        match rest.drop run.length with
        | '.' :: rest2 =>
            if matchCI ("supabase.co".toList) rest2 then
              some (8 + run.length + 1 + 11 + pathSegsLen (rest2.drop 11))
            else none
        | _ => none
    match withLabel with
    | some n => some n
    | none =>
        if matchCI ("supabase.co".toList) rest then
          some (8 + 11 + pathSegsLen (rest.drop 11))
        else none
  else none

def supabaseMatch (c : Char) (rest : List Char) : Option Nat :=
  (supabaseMatchFull (c :: rest)).map (fun n => n - 1)

/-- Global replace of one pattern by `[REDACTED]`, scanning left to right and
resuming after each match. -/
def replaceAllF (matcher : Char → List Char → Option Nat) : Nat → List Char → List Char
  | 0, _ => []
  | _ + 1, [] => []
  | fuel + 1, c :: rest =>
      match matcher c rest with
      | some n => ("[REDACTED]".toList) ++ replaceAllF matcher fuel (rest.drop n)
      | none => c :: replaceAllF matcher fuel rest

def replaceAllWith (matcher : Char → List Char → Option Nat) (cs : List Char) : List Char :=
  replaceAllF matcher cs.length cs

/-- `redactString` from redact.ts: the three pattern replacements in order. -/
def redactString (s : String) : String :=
  String.mk (replaceAllWith supabaseMatch
    (replaceAllWith jwtMatch
      (replaceAllWith openaiKeyMatch s.toList)))

/-- `SENSITIVE_KEYS` (case-insensitive, anchored at both ends): the finitely
many strings the alternation can generate. -/
def sensitiveKeyTest (k : String) : Bool :=
  let lk := String.mk (k.toList.map Char.toLower)
  ["apikey", "api_key", "api-key", "authorization", "secret", "password", "token",
   "supabaseanonkey", "supabaseanon_key", "supabaseanon-key",
   "supabase_anonkey", "supabase_anon_key", "supabase_anon-key",
   "supabase-anonkey", "supabase-anon_key", "supabase-anon-key",
   "supabaseservicekey", "supabaseservice_key", "supabaseservice-key",
   "supabase_servicekey", "supabase_service_key", "supabase_service-key",
   "supabase-servicekey", "supabase-service_key", "supabase-service-key"].contains lk

mutual

/-- `redactValue` from redact.ts (lines 66-84): a string value under a
sensitive key is replaced outright; any other string is pattern-redacted;
arrays recurse without a key, objects recurse passing each entry's key. -/
def redactValue : Option String → JsonValue → JsonValue
  | key, .str s =>
      if (key.getD "") != "" && sensitiveKeyTest (key.getD "") then .str "[REDACTED]"
      else .str (redactString s)
  | _, .arr xs => .arr (redactJsonList xs)
  | _, .obj fs => .obj (redactJsonFields fs)
  | _, .num n => .num n
  | _, .bool b => .bool b
  | _, .null => .null

def redactJsonList : List JsonValue → List JsonValue
  | [] => []
  | x :: xs => redactValue none x :: redactJsonList xs

def redactJsonFields : List (String × JsonValue) → List (String × JsonValue)
  | [] => []
  | (k, v) :: fs => (k, redactValue (some k) v) :: redactJsonFields fs

end

/-- `redact` from redact.ts (lines 90-92). -/
def redact (v : JsonValue) : JsonValue := redactValue none v

/-! ## Conversation budget and context-pack conversation section -/

structure ConversationTurn where
  role : String
  content : String
deriving DecidableEq

def CONVERSATION_RECENT_MAX_CHARS : Nat := 12000

/-- The per-turn rendered length used by `recentTurnsWithinCharBudget`:
`(t.role?.length ?? 0) + (t.content?.length ?? 0) + 12`. -/
def renderedLen (t : ConversationTurn) : Nat := t.role.length + t.content.length + 12

/-- The backwards accumulation loop of `recentTurnsWithinCharBudget`:
`revTurns` is the history newest first; stop at the first turn that would
push the total over the budget, unless nothing has been taken yet. -/
def recentTurnsAux (maxChars : Nat) : List ConversationTurn → Nat → List ConversationTurn →
    List ConversationTurn
  | [], _, recent => recent
  | t :: restRev, len, recent =>
      if maxChars < len + renderedLen t && recent.length != 0 then recent
      else recentTurnsAux maxChars restRev (len + renderedLen t) (t :: recent)

/-- `recentTurnsWithinCharBudget` from projectManager.ts (lines 467-482). -/
def recentTurnsWithinCharBudget (turns : List ConversationTurn) (maxChars : Nat) :
    List ConversationTurn × Nat :=
  if turns.isEmpty then ([], 0)
  else
    let recent := recentTurnsAux maxChars turns.reverse 0 []
    (recent, turns.length - recent.length)

/-- The conversation section of `buildContextPack` (lines 495-507) in the
branch with no pre-built conversation context pack: `none` when the history is
empty (no section emitted), otherwise the rendered section text. -/
def conversationSection (history : List ConversationTurn) : Option String :=
  if history.isEmpty then none
  else
    let r := recentTurnsWithinCharBudget history CONVERSATION_RECENT_MAX_CHARS
    let truncNote :=
      if 0 < r.2 then
        "\n(older messages omitted; showing recent conversation within 12,000 characters)\n\n"
      else "\n\n"
    let lines := r.1.map (fun t => "**" ++ t.role ++ "**: " ++ t.content)
    some ("## Conversation so far" ++ truncNote ++ String.intercalate "\n\n" lines)

/-! ## Fallback reply chain of runPmAgent (lines 1921-2091) -/

/-- The output fields the fallback chain inspects, as optional JSON fields. -/
structure ToolOut where
  success : Option Bool := none
  error : Option String := none
  detectedPlaceholders : Option (List String) := none
  id : Option String := none
  filePath : Option String := none
  ready : Option Bool := none
  missingItems : Option (List String) := none
  ticketId : Option String := none
  fromColumn : Option String := none
  toColumn : Option String := none
  column_id : Option String := none
  tickets : Option (List (String × String)) := none
  count : Option Nat := none
  repos : Option (List String) := none
  display_id : Option String := none
  fromRepo : Option String := none
  toRepo : Option String := none
deriving DecidableEq

structure ToolCallRecord where
  name : String
  output : ToolOut
deriving DecidableEq

def isCreateRejectedRec (c : ToolCallRecord) : Bool :=
  c.name == "create_ticket" && c.output.success == some false &&
    c.output.detectedPlaceholders.isSome

def isUpdateRejectedRec (c : ToolCallRecord) : Bool :=
  c.name == "update_ticket_body" && c.output.success == some false &&
    c.output.detectedPlaceholders.isSome

def isCreateOkRec (c : ToolCallRecord) : Bool :=
  c.name == "create_ticket" && c.output.success == some true

def isMoveOkRec (c : ToolCallRecord) : Bool :=
  c.name == "kanban_move_ticket_to_todo" && c.output.success == some true

def isUpdateOkRec (c : ToolCallRecord) : Bool :=
  c.name == "update_ticket_body" && c.output.success == some true

def isSyncOkRec (c : ToolCallRecord) : Bool :=
  c.name == "sync_tickets" && c.output.success == some true

def isListTicketsOkRec (c : ToolCallRecord) : Bool :=
  c.name == "list_tickets_by_column" && c.output.success == some true

def isListReposOkRec (c : ToolCallRecord) : Bool :=
  c.name == "list_available_repos" && c.output.success == some true

def isCrossMoveOkRec (c : ToolCallRecord) : Bool :=
  c.name == "kanban_move_ticket_to_other_repo_todo" && c.output.success == some true

def renderPlaceholderReject (kind : String) (out : ToolOut) : String :=
  let base := "**Ticket " ++ kind ++ " rejected:** " ++ out.error.getD ""
  let base :=
    match out.detectedPlaceholders with
    | some l => if l.length > 0 then base ++ "\n\n**Detected placeholders:** " ++ String.intercalate ", " l else base
    | none => base
  base ++ "\n\nPlease replace all angle-bracket placeholders with concrete content and try again. Check Diagnostics for details."

def renderCreateOk (out : ToolOut) : String :=
  let base := "I created ticket **" ++ out.id.getD "" ++ "** at `" ++ out.filePath.getD "" ++
    "`. It should appear in the Kanban board under Unassigned (sync may run automatically)."
  if out.ready == some false && (out.missingItems.getD []).length > 0 then
    base ++ " The ticket is not yet ready for To Do: " ++
      String.intercalate "; " (out.missingItems.getD []) ++
      ". Update the ticket or ask me to move it once it passes the Ready-to-start checklist."
  else base

def renderMoveOk (out : ToolOut) : String :=
  "I moved ticket **" ++ out.ticketId.getD "" ++ "** from " ++ out.fromColumn.getD "" ++
    " to **" ++ out.toColumn.getD "" ++ "**. It should now appear under To Do on the Kanban board."

def renderUpdateOk (out : ToolOut) : String :=
  let base := "I updated the body of ticket **" ++ out.ticketId.getD "" ++
    "** in Supabase. The Kanban UI will reflect the change within ~10 seconds."
  if out.ready == some false && (out.missingItems.getD []).length > 0 then
    base ++ " Note: the ticket may still not pass readiness: " ++
      String.intercalate "; " (out.missingItems.getD []) ++ "."
  else base

def renderSyncOk : String :=
  "I ran sync-tickets. docs/tickets/*.md now match Supabase (Supabase is the source of truth)."

def renderListTicketsOk (out : ToolOut) : String :=
  if out.count.getD 0 = 0 then
    "No tickets found in column **" ++ out.column_id.getD "" ++ "**."
  else
    "Tickets in **" ++ out.column_id.getD "" ++ "** (" ++ toString (out.count.getD 0) ++ "):\n\n" ++
      String.intercalate "\n" ((out.tickets.getD []).map
        (fun t => "- **" ++ t.1 ++ "** — " ++ t.2))

def renderListReposOk (out : ToolOut) : String :=
  if out.count.getD 0 = 0 then "No repositories found in the database."
  else
    "Available repositories (" ++ toString (out.count.getD 0) ++ "):\n\n" ++
      String.intercalate "\n" ((out.repos.getD []).map (fun r => "- **" ++ r ++ "**"))

def renderCrossMoveOk (out : ToolOut) : String :=
  "I moved ticket **" ++ (out.display_id.getD (out.ticketId.getD "")) ++ "** from **" ++
    out.fromRepo.getD "" ++ "** (" ++ out.fromColumn.getD "" ++ ") to **" ++
    out.toRepo.getD "" ++ "** (" ++ out.toColumn.getD "" ++
    "). The ticket is now in the To Do column of the target repository."

/-- The fallback-reply chain of `runPmAgent` run when the model text is blank:
an ordered cascade of `toolCalls.find(...)` probes, each taking the *first*
matching record. -/
def fallbackReply (toolCalls : List ToolCallRecord) : String :=
  match toolCalls.find? isCreateRejectedRec with
  | some c => renderPlaceholderReject "creation" c.output
  | none =>
  match toolCalls.find? isUpdateRejectedRec with
  | some c => renderPlaceholderReject "update" c.output
  | none =>
  match toolCalls.find? isCreateOkRec with
  | some c => renderCreateOk c.output
  | none =>
  match toolCalls.find? isMoveOkRec with
  | some c => renderMoveOk c.output
  | none =>
  match toolCalls.find? isUpdateOkRec with
  | some c => renderUpdateOk c.output
  | none =>
  match toolCalls.find? isSyncOkRec with
  | some _ => renderSyncOk
  | none =>
  match toolCalls.find? isListTicketsOkRec with
  | some c => renderListTicketsOk c.output
  | none =>
  match toolCalls.find? isListReposOkRec with
  | some c => renderListReposOk c.output
  | none =>
  match toolCalls.find? isCrossMoveOkRec with
  | some c => renderCrossMoveOk c.output
  | none => ""

/-- `let reply = result.text ?? ''; if (!reply.trim()) { ...fallback... }`:
the final reply of a successful turn as a function of the model text and the
Tool Call Record. -/
def pmReplyWithFallback (modelText : String) (toolCalls : List ToolCallRecord) : String :=
  if (jsTrim modelText).isEmpty then fallbackReply toolCalls else modelText

/-! ## Lemmas on path segments -/

theorem toList_append_slash (x z : String) :
    (x ++ "/" ++ z).toList = x.toList ++ '/' :: z.toList := by
  simp [String.toList, String.data_append]

theorem isPrefixOf_dotdot_append (l z : List Char) :
    (['.', '.'].isPrefixOf (l ++ '/' :: z)) = (['.', '.'].isPrefixOf l) := by
  match l with
  | [] => simp [List.isPrefixOf]
  | [c] => simp [List.isPrefixOf]
  | c1 :: c2 :: t => simp [List.isPrefixOf]

theorem isPrefixOf_slash_append (l z : List Char) (hl : l ≠ []) :
    (['/'].isPrefixOf (l ++ '/' :: z)) = (['/'].isPrefixOf l) := by
  match l with
  | [] => exact absurd rfl hl
  | c :: t => simp [List.isPrefixOf]

theorem jsStartsWith_joinSlash_dotdot (x : String) (rest : List String) :
    jsStartsWith (joinSlash (x :: rest)) ".." = jsStartsWith x ".." := by
  match rest with
  | [] => rfl
  | r :: rs =>
      show (("..".toList).isPrefixOf (x ++ "/" ++ joinSlash (r :: rs)).toList) = _
      rw [toList_append_slash]
      exact isPrefixOf_dotdot_append x.toList (joinSlash (r :: rs)).toList

theorem jsStartsWith_joinSlash_slash (x : String) (rest : List String) (hx : x ≠ "") :
    jsStartsWith (joinSlash (x :: rest)) "/" = jsStartsWith x "/" := by
  match rest with
  | [] => rfl
  | r :: rs =>
      show (("/".toList).isPrefixOf (x ++ "/" ++ joinSlash (r :: rs)).toList) = _
      rw [toList_append_slash]
      refine isPrefixOf_slash_append x.toList (joinSlash (r :: rs)).toList ?_
      intro hnil
      exact hx (by
        have : x.toList = ([] : List Char) := hnil
        cases x with
        | mk data => simpa [String.toList] using congrArg String.mk this)

theorem relativeSegs_outside :
    ∀ (A B : List String), A.isPrefixOf B = false →
      ∃ rest, relativeSegs A B = ".." :: rest := by
  intro A
  induction A with
  | nil =>
      intro B h
      simp only [List.isPrefixOf] at h
      simp at h
  | cons f fs ih =>
      intro B h
      match B with
      | [] =>
          refine ⟨List.replicate fs.length "..", ?_⟩
          simp [relativeSegs, List.replicate_succ]
      | t :: ts =>
          by_cases hft : f = t
          · subst hft
            simp only [List.isPrefixOf, beq_self_eq_true, Bool.true_and] at h
            obtain ⟨rest, hrest⟩ := ih ts h
            exact ⟨rest, by simpa [relativeSegs] using hrest⟩
          · refine ⟨List.replicate fs.length ".." ++ (t :: ts), ?_⟩
            simp [relativeSegs, hft, List.replicate_succ]

theorem relativeSegs_inside :
    ∀ (A B : List String), A.isPrefixOf B = true →
      relativeSegs A B = B.drop A.length := by
  intro A
  induction A with
  | nil => intro B _; cases B <;> simp [relativeSegs]
  | cons f fs ih =>
      intro B h
      match B with
      | [] =>
          simp only [List.isPrefixOf] at h
          simp at h
      | t :: ts =>
          simp only [List.isPrefixOf, Bool.and_eq_true, beq_iff_eq] at h
          obtain ⟨hft, hfs⟩ := h
          subst hft
          simp [relativeSegs, ih ts hfs]

/-- Following the claim's words ("for any candidate fully inside the root"):
after resolution against the root, the root's segments are a prefix of the
candidate's segments. -/
def insideRootSpec (repoRoot relativeOrAbsolute : String) : Bool :=
  let candidate := if relativeOrAbsolute = "" then "." else relativeOrAbsolute
  (resolveSegs repoRoot ".").isPrefixOf (resolveSegs repoRoot candidate)

/-- C6 counterexample: the candidate `"..weird"` names a child of the root
(its resolved path `/repo/..weird` is fully inside `/repo`), yet `sandboxPath`
returns no path, because the *string* test `relative.startsWith('..')` also
fires on a first segment that merely begins with two dots. -/
theorem sandboxPath_inside_rejected_cex :
    insideRootSpec "/repo" "..weird" = true ∧ sandboxPath "/repo" "..weird" = none := by
  constructor <;> rfl

/-- C6 amended: `sandboxPath` is deterministic and pure (it is a function);
a candidate whose resolution escapes the root (root segments not a prefix) is
rejected; a candidate resolving exactly to the root, or strictly inside it
with a first extra segment that does not begin with `..` (or `/`), yields the
resolved absolute path; but — beyond the claim as written — a candidate fully
inside the root whose first extra segment begins with the two characters `..`
is also rejected. -/
theorem sandboxPath_characterization (root p : String) :
    ((resolveSegs root ".").isPrefixOf (resolveSegs root (if p = "" then "." else p)) = false →
      sandboxPath root p = none)
    ∧ ((resolveSegs root ".").isPrefixOf (resolveSegs root (if p = "" then "." else p)) = true →
        (resolveSegs root (if p = "" then "." else p)).drop (resolveSegs root ".").length = [] →
        sandboxPath root p = some (resolvePath root (if p = "" then "." else p)))
    ∧ (∀ x rest,
        (resolveSegs root ".").isPrefixOf (resolveSegs root (if p = "" then "." else p)) = true →
        (resolveSegs root (if p = "" then "." else p)).drop (resolveSegs root ".").length = x :: rest →
        jsStartsWith x ".." = false → jsStartsWith x "/" = false → x ≠ "" →
        sandboxPath root p = some (resolvePath root (if p = "" then "." else p)))
    ∧ (∀ x rest,
        (resolveSegs root ".").isPrefixOf (resolveSegs root (if p = "" then "." else p)) = true →
        (resolveSegs root (if p = "" then "." else p)).drop (resolveSegs root ".").length = x :: rest →
        jsStartsWith x ".." = true →
        sandboxPath root p = none) := by
  refine ⟨?_, ?_, ?_, ?_⟩
  · intro h
    obtain ⟨rest, hrest⟩ := relativeSegs_outside _ _ h
    simp only [sandboxPath]
    rw [hrest, jsStartsWith_joinSlash_dotdot]
    rw [show jsStartsWith ".." ".." = true from rfl]
    simp
  · intro h hdrop
    simp only [sandboxPath]
    rw [relativeSegs_inside _ _ h, hdrop]
    rfl
  · intro x rest h hdrop hdd hsl hx
    simp only [sandboxPath]
    rw [relativeSegs_inside _ _ h, hdrop, jsStartsWith_joinSlash_dotdot, hdd]
    simp only [Bool.false_or]
    rw [show isAbsolutePath (joinSlash (x :: rest)) = jsStartsWith (joinSlash (x :: rest)) "/" from rfl]
    rw [jsStartsWith_joinSlash_slash x rest hx, hsl]
    rfl
  · intro x rest h hdrop hdd
    simp only [sandboxPath]
    rw [relativeSegs_inside _ _ h, hdrop, jsStartsWith_joinSlash_dotdot, hdd]
    rfl

/-- Witness for C6's amended theorem at concrete inputs: an escaping `..` path
is rejected, an inside path resolves, the root itself resolves. -/
theorem sandboxPath_characterization_witness :
    sandboxPath "/repo" "../etc/passwd" = none
    ∧ sandboxPath "/repo" "src/app.ts" = some "/repo/src/app.ts"
    ∧ sandboxPath "/repo" "" = some "/repo" := by
  refine ⟨?_, ?_, ?_⟩
  · exact (sandboxPath_characterization "/repo" "../etc/passwd").1 (by rfl)
  · exact (sandboxPath_characterization "/repo" "src/app.ts").2.2.1 "src" ["app.ts"]
      (by rfl) (by rfl) (by rfl) (by rfl) (by decide)
  · exact (sandboxPath_characterization "/repo" "").2.1 (by rfl) (by rfl)

/-! ## C2: evaluateTicketReady -/

/-- Substring containment scan (for the claim's literal `- [ ]` reading). -/
def hasSubstrGo (pat : List Char) : List Char → Bool
  | [] => pat.isEmpty
  | c :: rest => pat.isPrefixOf (c :: rest) || hasSubstrGo pat rest

def hasSubstr (s pat : String) : Bool := hasSubstrGo pat.toList s.toList

/-- Following the claim's words: readiness with the required sections matched
by the exact heading texts Goal, Human-verifiable deliverable, Acceptance
criteria, Constraints, Non-goals, at least one unchecked checkbox written
literally as `- [ ]`, and a global placeholder scan. -/
def readySpecClaim (bodyMd : String) : Bool :=
  let body := jsTrim bodyMd
  let goal := sectionContent body "Goal"
  let deliverable := sectionContent body "Human-verifiable deliverable"
  let ac := sectionContent body "Acceptance criteria"
  let constraints := sectionContent body "Constraints"
  let nonGoals := sectionContent body "Non-goals"
  !goal.isEmpty && (placeholderMatches goal).isEmpty &&
  !deliverable.isEmpty && (placeholderMatches deliverable).isEmpty &&
  hasSubstr ac "- [ ]" &&
  !constraints.isEmpty && !nonGoals.isEmpty &&
  (placeholderMatches body).isEmpty

/-- C2 counterexample: a body whose five sections carry exactly the heading
texts the claim names (`Goal`, `Human-verifiable deliverable`, …), all
populated, with a `- [ ] Works` checkbox and no placeholder anywhere.  The
claim's reading makes it ready; `evaluateTicketReady` returns `ready = false`
because the code's headings carry the parenthetical qualifiers
`(one sentence)` / `(UI-only)`. -/
theorem evaluateTicketReady_heading_cex :
    readySpecClaim
      "## Goal\nShip\n\n## Human-verifiable deliverable\nButton\n\n## Acceptance criteria\n- [ ] Works\n\n## Constraints\nNone\n\n## Non-goals\nNone"
      = true
    ∧ (evaluateTicketReady
      "## Goal\nShip\n\n## Human-verifiable deliverable\nButton\n\n## Acceptance criteria\n- [ ] Works\n\n## Constraints\nNone\n\n## Non-goals\nNone").ready
      = false := by
  constructor <;> rfl

/-- C2 amended: `evaluateTicketReady` is a pure function of the body and its
`ready` bit is true exactly when: the `Goal (one sentence)` section is
non-empty, placeholder-free and not itself a single angle-bracketed block; the
`Human-verifiable deliverable (UI-only)` section is non-empty and
placeholder-free; the `Acceptance criteria (UI-only)` section matches the
unchecked-checkbox pattern (hyphen, optional spacing, `[`, optional spacing,
`]`); the `Constraints` and `Non-goals` sections are non-empty; and the
trimmed body carries no placeholder token anywhere.  Headings are matched by
those exact texts (case-insensitively).  Consequently a body whose
Acceptance-criteria section lacks the checkbox pattern is never ready. -/
theorem evaluateTicketReady_characterization (bodyMd : String) :
    ((evaluateTicketReady bodyMd).ready = true ↔
      goalOkOf bodyMd = true ∧ deliverableOkOf bodyMd = true ∧
      hasCheckbox (acSectionOf bodyMd) = true ∧ constraintsOkOf bodyMd = true ∧
      nonGoalsOkOf bodyMd = true ∧ noPlaceholdersOkOf bodyMd = true)
    ∧ (hasCheckbox (acSectionOf bodyMd) = false →
        (evaluateTicketReady bodyMd).ready = false) := by
  constructor
  · simp [evaluateTicketReady, acOkOf, noPlaceholdersOkOf, Bool.and_eq_true, and_assoc]
  · intro hac
    simp [evaluateTicketReady, acOkOf, hac]

/-- Witness for C2's amended theorem: a fully populated body is ready (via the
iff), and the same body with plain bullets instead of checkboxes is not. -/
theorem evaluateTicketReady_characterization_witness :
    (evaluateTicketReady
      "## Goal (one sentence)\nShip\n\n## Human-verifiable deliverable (UI-only)\nButton\n\n## Acceptance criteria (UI-only)\n- [ ] Works\n\n## Constraints\nNone\n\n## Non-goals\nNone").ready = true
    ∧ (evaluateTicketReady
      "## Goal (one sentence)\nShip\n\n## Human-verifiable deliverable (UI-only)\nButton\n\n## Acceptance criteria (UI-only)\n- Works\n\n## Constraints\nNone\n\n## Non-goals\nNone").ready = false := by
  constructor
  · exact (evaluateTicketReady_characterization _).1.mpr
      ⟨rfl, rfl, rfl, rfl, rfl, rfl⟩
  · exact (evaluateTicketReady_characterization _).2 rfl

/-! ## C10: ticket-reference parsing guard -/

theorem parseTicketNumber_none_of_no_digit (ref : String)
    (h : ∀ c ∈ (jsTrim ref).toList, c.isDigit = false) : parseTicketNumber ref = none := by
  have hrun : lastDigitRun (jsTrimList ref.toList) = [] := by
    unfold lastDigitRun
    have hnil : (jsTrimList ref.toList).reverse.dropWhile (fun c => !c.isDigit) = [] := by
      rw [List.dropWhile_eq_nil_iff]
      intro x hx
      have hx' : x ∈ (jsTrim ref).toList := by
        simpa [jsTrim] using List.mem_reverse.mp hx
      simp [h x hx']
    rw [hnil]
    rfl
  unfold parseTicketNumber
  simp
  intro _
  exact hrun

/-- C10: every store-backed ticket tool taking a ticket reference applies the
same guard: a reference parsing to `null` or `0` is rejected with the
`Could not parse ticket number` error, with the result independent of the
store state and the state unchanged (so no backing-store access can be
observed, and a ticket numbered 0 is unreachable).  A reference with no digit
always parses to `none`.  For `update_ticket_body` the guard sits after the
placeholder pre-check, so its conclusion assumes a placeholder-free body. -/
theorem ticketRef_guard_rejects (st : Store) (cfgRepo ref targetRepo now body : String)
    (h : parseTicketNumber ref = none ∨ parseTicketNumber ref = some 0) :
    fetch_ticket_content st cfgRepo ref =
      .failure ("Could not parse ticket number from \"" ++ ref ++ "\".")
    ∧ kanban_move_ticket_to_todo st cfgRepo ref now =
      (.failure ("Could not parse ticket number from \"" ++ ref ++ "\"."), st)
    ∧ kanban_move_ticket_to_other_repo_todo st cfgRepo ref targetRepo now =
      (.failure ("Could not parse ticket number from \"" ++ ref ++ "\"."), st)
    ∧ (placeholderMatches (jsTrim body) = [] →
        update_ticket_body st cfgRepo ref body =
          (.failure ("Could not parse ticket number from \"" ++ ref ++ "\".") none, st)) := by
  have hf : ticketNumberFalsy (parseTicketNumber ref) = true := by
    rcases h with h | h <;> simp [ticketNumberFalsy, h]
  refine ⟨?_, ?_, ?_, ?_⟩
  · unfold fetch_ticket_content
    simp [hf]
  · unfold kanban_move_ticket_to_todo
    simp [hf]
  · unfold kanban_move_ticket_to_other_repo_todo
    simp [hf]
  · intro hp
    unfold update_ticket_body
    simp [hp, hf]

/-- Witness for C10 on a store that actually contains a ticket numbered 0:
the references `"0000"` and `"PRJ-0000"` parse to 0 and every tool rejects
them, leaving the store unchanged; a digit-free reference parses to `none`. -/
theorem ticketRef_guard_rejects_witness :
    (kanban_move_ticket_to_todo
        [{ pk := 1, repo_full_name := some "owner/repo", ticket_number := 0,
           display_id := some "REPO-0000", id := "0000", filename := "0000-z.md",
           title := "Z", body_md := "", kanban_column_id := some "col-unassigned",
           kanban_position := 0, kanban_moved_at := "T" }]
        "owner/repo" "PRJ-0000" "T1").1 =
      MoveResult.failure "Could not parse ticket number from \"PRJ-0000\"."
    ∧ fetch_ticket_content [] "" "0000" =
      FetchResult.failure "Could not parse ticket number from \"0000\"."
    ∧ parseTicketNumber "no digits here" = none := by
  refine ⟨?_, ?_, ?_⟩
  · exact congrArg Prod.fst
      ((ticketRef_guard_rejects _ "owner/repo" "PRJ-0000" "x/y" "T1" "" (Or.inr rfl)).2.1)
  · exact (ticketRef_guard_rejects [] "" "0000" "x/y" "T" "" (Or.inr rfl)).1
  · exact parseTicketNumber_none_of_no_digit "no digits here" (by decide)

/-! ## C3: same-repo move gate vs cross-repo move -/

/-- C3: with a project configured and the referenced ticket found, if the
ticket's current column is anything other than `col-unassigned` / null /
empty, the same-repository move tool fails with the `not in Unassigned` error
naming that column and leaves the store unchanged; the cross-repository move
tool performs no source-column check, and moves the very same ticket from that
same column to the target repository's To Do for any well-formed target. -/
theorem moveToTodo_gate_vs_crossRepo (st : Store) (cfgRepo ticket_id now : String)
    (row : Ticket) (col : String)
    (hnum : ticketNumberFalsy (parseTicketNumber ticket_id) = false)
    (hcfg : (cfgRepo != "") = true)
    (hfind : findTicketByRepoNumber st cfgRepo ((parseTicketNumber ticket_id).getD 0) = some row)
    (hcol : row.kanban_column_id = some col)
    (hc1 : col ≠ "col-unassigned") (hc2 : col ≠ "") :
    kanban_move_ticket_to_todo st cfgRepo ticket_id now =
      (.failure ("Ticket is not in Unassigned (current column: " ++ col ++
        "). Only tickets in Unassigned can be moved to To Do."), st)
    ∧ (∀ targetRepo, (jsTrim targetRepo == "") = false →
        (jsTrim targetRepo).toList.contains '/' = true →
        ∃ displayId newState,
          kanban_move_ticket_to_other_repo_todo st cfgRepo ticket_id targetRepo now =
            (.success (padStart4 ((parseTicketNumber ticket_id).getD 0)) displayId
              (row.repo_full_name.getD "legacy/unknown") (jsTrim targetRepo) col "col-todo",
             newState)) := by
  constructor
  · unfold kanban_move_ticket_to_todo
    simp [hnum, hcfg, hfind, hcol, hc1, hc2]
  · intro targetRepo ht1 ht2
    have ht2' : '/' ∈ (jsTrim targetRepo).data := by
      simpa using ht2
    unfold kanban_move_ticket_to_other_repo_todo
    simp [hnum, hcfg, hfind, hcol, ht1, ht2']

/-- Witness for C3: a concrete ticket sitting in `col-qa` is rejected by the
same-repository move tool but accepted by the cross-repository one. -/
theorem moveToTodo_gate_vs_crossRepo_witness :
    kanban_move_ticket_to_todo
        [{ pk := 1, repo_full_name := some "owner/repo", ticket_number := 5,
           display_id := some "REPO-0005", id := "0005", filename := "0005-x.md",
           title := "X", body_md := "", kanban_column_id := some "col-qa",
           kanban_position := 2, kanban_moved_at := "T" }]
        "owner/repo" "0005" "T1" =
      (MoveResult.failure
        "Ticket is not in Unassigned (current column: col-qa). Only tickets in Unassigned can be moved to To Do.",
       [{ pk := 1, repo_full_name := some "owner/repo", ticket_number := 5,
          display_id := some "REPO-0005", id := "0005", filename := "0005-x.md",
          title := "X", body_md := "", kanban_column_id := some "col-qa",
          kanban_position := 2, kanban_moved_at := "T" }])
    ∧ ∃ displayId newState,
        kanban_move_ticket_to_other_repo_todo
          [{ pk := 1, repo_full_name := some "owner/repo", ticket_number := 5,
             display_id := some "REPO-0005", id := "0005", filename := "0005-x.md",
             title := "X", body_md := "", kanban_column_id := some "col-qa",
             kanban_position := 2, kanban_moved_at := "T" }]
          "owner/repo" "0005" "other/newrepo" "T1" =
        (CrossMoveResult.success "0005" displayId "owner/repo" "other/newrepo" "col-qa" "col-todo",
         newState) := by
  have H := moveToTodo_gate_vs_crossRepo
    [{ pk := 1, repo_full_name := some "owner/repo", ticket_number := 5,
       display_id := some "REPO-0005", id := "0005", filename := "0005-x.md",
       title := "X", body_md := "", kanban_column_id := some "col-qa",
       kanban_position := 2, kanban_moved_at := "T" }]
    "owner/repo" "0005" "T1"
    { pk := 1, repo_full_name := some "owner/repo", ticket_number := 5,
      display_id := some "REPO-0005", id := "0005", filename := "0005-x.md",
      title := "X", body_md := "", kanban_column_id := some "col-qa",
      kanban_position := 2, kanban_moved_at := "T" }
    "col-qa" rfl rfl rfl rfl (by decide) (by decide)
  exact ⟨H.1, H.2 "other/newrepo" rfl rfl⟩

/-! ## C4: placeholder pre-check precedes any store access -/

/-- C4: for every body containing at least one placeholder token, both
`create_ticket` and `update_ticket_body` reject with the placeholder error
listing the (deduplicated) detected placeholders, the store is returned
unchanged, and the result is the same for every store state (so no
backing-store query can influence it and no write happens). -/
theorem placeholder_precheck_rejects (st : Store) (projectId : Option String)
    (cfgRepo title ticket_id body now : String) (newPk : Nat)
    (h : placeholderMatches (jsTrim body) ≠ []) :
    create_ticket st projectId title body now newPk =
      (.err ("Ticket creation rejected: unresolved template placeholder tokens detected. Detected placeholders: "
          ++ String.intercalate ", " (dedupFirst (placeholderMatches (jsTrim body)))
          ++ ". Replace all angle-bracket placeholders with concrete content before creating the ticket.")
        (some (dedupFirst (placeholderMatches (jsTrim body)))), st)
    ∧ update_ticket_body st cfgRepo ticket_id body =
      (.failure ("Ticket update rejected: unresolved template placeholder tokens detected. Detected placeholders: "
          ++ String.intercalate ", " (dedupFirst (placeholderMatches (jsTrim body)))
          ++ ". Replace all angle-bracket placeholders with concrete content before updating the ticket.")
        (some (dedupFirst (placeholderMatches (jsTrim body)))), st) := by
  have hne : (placeholderMatches (jsTrim body)).isEmpty = false := by
    cases hm : placeholderMatches (jsTrim body) with
    | nil => exact absurd hm h
    | cons a l => rfl
  constructor
  · unfold create_ticket
    simp [hne]
  · unfold update_ticket_body
    simp [hne]

/-- Witness for C4 at a concrete placeholder-bearing body and two different
store states (the rejection is identical on both). -/
theorem placeholder_precheck_rejects_witness :
    (create_ticket [] (some "owner/repo") "T" "body with <AC 1>" "T0" 7).2 = []
    ∧ (update_ticket_body
        [{ pk := 1, repo_full_name := some "owner/repo", ticket_number := 5,
           display_id := some "REPO-0005", id := "0005", filename := "0005-x.md",
           title := "X", body_md := "old", kanban_column_id := some "col-qa",
           kanban_position := 2, kanban_moved_at := "T" }]
        "owner/repo" "0005" "body with <AC 1>").1 =
      UpdateResult.failure
        "Ticket update rejected: unresolved template placeholder tokens detected. Detected placeholders: <AC 1>. Replace all angle-bracket placeholders with concrete content before updating the ticket."
        (some ["<AC 1>"]) := by
  constructor
  · exact congrArg Prod.snd
      ((placeholder_precheck_rejects [] (some "owner/repo") "" "T" "x" "body with <AC 1>" "T0" 7
        (by decide)).1)
  · exact congrArg Prod.fst
      ((placeholder_precheck_rejects
        [{ pk := 1, repo_full_name := some "owner/repo", ticket_number := 5,
           display_id := some "REPO-0005", id := "0005", filename := "0005-x.md",
           title := "X", body_md := "old", kanban_column_id := some "col-qa",
           kanban_position := 2, kanban_moved_at := "T" }]
        (some "owner/repo") "owner/repo" "T" "0005" "body with <AC 1>" "T0" 7
        (by decide)).2)

/-! ## C1: create_ticket ID allocation and retry -/

theorem createTicketRetryGo_all_conflict (insert : Nat → InsertOutcome) (start : Nat) (m2 : String) :
    ∀ (attempts : List Nat) (lastMsg : String), attempts ≠ [] →
      (∀ a ∈ attempts, insert (start + a - 1) = .uniqueViolation m2) →
      createTicketRetryGo insert start attempts lastMsg =
        .failure ("Could not reserve a ticket ID after " ++ toString MAX_CREATE_TICKET_RETRIES ++
          " attempts (id/filename collision). Last: " ++ m2) := by
  intro attempts
  induction attempts with
  | nil => intro lastMsg hne _; exact absurd rfl hne
  | cons a rest ih =>
      intro lastMsg _ hall
      have ha := hall a (List.mem_cons_self a rest)
      unfold createTicketRetryGo
      rw [ha]
      cases hrest : rest with
      | nil => unfold createTicketRetryGo; rfl
      | cons b bs =>
          rw [← hrest]
          exact ih m2 (by simp [hrest]) (fun x hx => hall x (List.mem_cons_of_mem a hx))

/-- C1: the starting candidate is one past the repository's current maximum
sequence number (or 1 with no rows); a uniqueness conflict on the first
attempt alone causes exactly one retry with the next candidate, and the
created ticket's sequence number is that next candidate (attempts = 2,
retried = true); ten conflicting attempts exhaust the loop with the explicit
`after 10 attempts` error. -/
theorem create_ticket_retry_spec (insert : Nat → InsertOutcome) (maxExisting : Nat)
    (m1 m2 : String) :
    nextStartNum (some maxExisting) = maxExisting + 1
    ∧ nextStartNum none = 1
    ∧ (insert (maxExisting + 1) = .uniqueViolation m1 →
        insert (maxExisting + 2) = .ok →
        createTicketRetryLoop insert (maxExisting + 1) =
          .success ⟨maxExisting + 2, true, 2⟩)
    ∧ ((∀ i, i < MAX_CREATE_TICKET_RETRIES →
          insert (maxExisting + 1 + i) = .uniqueViolation m2) →
        createTicketRetryLoop insert (maxExisting + 1) =
          .failure ("Could not reserve a ticket ID after 10 attempts (id/filename collision). Last: "
            ++ m2)) := by
  refine ⟨rfl, rfl, ?_, ?_⟩
  · intro h1 h2
    have e1 : maxExisting + 1 + 1 - 1 = maxExisting + 1 := by omega
    have e2 : maxExisting + 1 + 2 - 1 = maxExisting + 2 := by omega
    unfold createTicketRetryLoop
    rw [show List.range' 1 MAX_CREATE_TICKET_RETRIES = 1 :: 2 :: List.range' 3 8 from rfl]
    unfold createTicketRetryGo
    rw [e1, h1]
    unfold createTicketRetryGo
    rw [e2, h2]
    simp
  · intro hall
    unfold createTicketRetryLoop
    refine createTicketRetryGo_all_conflict insert (maxExisting + 1) m2 _ _ (by decide) ?_
    intro a ha
    have hmem : 1 ≤ a ∧ a < 1 + MAX_CREATE_TICKET_RETRIES := by
      have := List.mem_range'_1.mp ha
      exact ⟨this.1, this.2⟩
    have := hall (a - 1) (by omega)
    have harith : maxExisting + 1 + (a - 1) = maxExisting + 1 + a - 1 := by omega
    rw [harith] at this
    exact this

/-- Witness for C1 at a concrete insert-outcome environment: current maximum
41, conflict on 42 only, success on 43 (one retry, sequence number 43); a
permanently conflicting environment exhausts with the 10-attempts error. -/
theorem create_ticket_retry_spec_witness :
    createTicketRetryLoop
        (fun n => if n = 42 then .uniqueViolation "dup" else .ok) 42 =
      .success ⟨43, true, 2⟩
    ∧ createTicketRetryLoop (fun _ => .uniqueViolation "dup") 42 =
      .failure ("Could not reserve a ticket ID after 10 attempts (id/filename collision). Last: dup") := by
  constructor
  · exact (create_ticket_retry_spec
      (fun n => if n = 42 then .uniqueViolation "dup" else .ok) 41 "dup" "dup").2.2.1
      (by decide) (by decide)
  · exact (create_ticket_retry_spec
      (fun _ => .uniqueViolation "dup") 41 "dup" "dup").2.2.2
      (fun i _ => rfl)

/-! ## C5: creating a ready ticket with an empty To-Do column -/

theorem maxTodoPositionRepo_append_single (st : Store) (t : Ticket) (repo : String) :
    maxTodoPositionRepo (st ++ [t]) repo =
      if (t.kanban_column_id == some "col-todo" && t.repo_full_name == some repo) = true then
        max (maxTodoPositionRepo st repo) t.kanban_position
      else maxTodoPositionRepo st repo := by
  unfold maxTodoPositionRepo
  rw [List.foldl_append]
  rfl

/-- C5 counterexample: creating "Fix login" with a fully populated,
placeholder-free body containing `- [ ] Works` on an empty store (so the
To-Do column is empty) succeeds with `ready: true` and auto-moves the ticket
to To Do — but the ticket's position is `1`, not `0`: the destination position
is one past the `reduce(..., 0)` floor, which is `0 + 1` for an empty column. -/
theorem create_ticket_emptyTodo_position_cex :
    ((create_ticket [] (some "owner/repo") "Fix login"
        "## Goal (one sentence)\nShip login\n\n## Human-verifiable deliverable (UI-only)\nLogin button works\n\n## Acceptance criteria (UI-only)\n- [ ] Works\n\n## Constraints\nNone\n\n## Non-goals\nNone"
        "T0" 100).2.map (fun t => (t.kanban_column_id, t.kanban_position))) =
      [(some "col-todo", 1)]
    ∧ (create_ticket [] (some "owner/repo") "Fix login"
        "## Goal (one sentence)\nShip login\n\n## Human-verifiable deliverable (UI-only)\nLogin button works\n\n## Acceptance criteria (UI-only)\n- [ ] Works\n\n## Constraints\nNone\n\n## Non-goals\nNone"
        "T0" 100).1 =
      CreateTicketResult.ok
        { id := "0001", display_id := "REPO-0001", ticket_number := 1,
          repo_full_name := "owner/repo", filename := "0001-fix-login.md",
          filePath := "supabase:tickets/REPO-0001", retried := false, attempts := 1,
          ready := true, missingItems := [], autoFixed := false, movedToTodo := true,
          moveError := none } := by
  constructor <;> rfl

/-- C5 amended: with a project configured (scope `R`), start number `S`,
display id `D`, normalized body `B` and filename `F` as create_ticket derives
them, if the body is placeholder-free before and after normalization, the
first candidate does not collide, the normalized body is ready, and the
repository's To-Do column is empty (maximum position 0), then create_ticket
succeeds on the first attempt with `ready: true` and `movedToTodo: true`, and
the created row (identified by its fresh primary key) ends in column
`col-todo` at position `1` — one past the 0 default used for the empty
column, not position 0. -/
theorem create_ticket_ready_empty_todo
    (st : Store) (projectId : Option String) (title body now : String) (newPk : Nat)
    (R : String) (S : Nat) (D B F : String)
    (hR : createRepoOf projectId = R)
    (hS : nextStartNum (maxTicketNumber st R) = S)
    (hS0 : (S != 0) = true)
    (hD : repoHintPfx R ++ "-" ++ padStart4 S = D)
    (hB : normalizeTitleLineInBody (normalizeBodyForReady (jsTrim body)) D = B)
    (hF : padStart4 S ++ "-" ++ slugFromTitle title ++ ".md" = F)
    (h0 : placeholderMatches (jsTrim body) = [])
    (h1 : placeholderMatches B = [])
    (h2 : insertConflict st R S (padStart4 S) F = false)
    (h3 : (evaluateTicketReady B).ready = true)
    (h4 : (R != "legacy/unknown") = true)
    (h6 : maxTodoPositionRepo st R = 0)
    (h7 : ∀ t ∈ st, t.pk ≠ newPk) :
    ∃ stOut,
      create_ticket st projectId title body now newPk =
        (.ok { id := padStart4 S, display_id := D, ticket_number := S, repo_full_name := R,
               filename := F, filePath := "supabase:tickets/" ++ D,
               retried := false, attempts := 1, ready := true,
               missingItems := (evaluateTicketReady B).missingItems,
               autoFixed := false, movedToTodo := true, moveError := none }, stOut)
      ∧ (∀ t ∈ stOut, t.pk = newPk →
          t.kanban_column_id = some "col-todo" ∧ t.kanban_position = 1)
      ∧ (∃ t ∈ stOut, t.pk = newPk) := by
  have hmax : ∀ t0 : Ticket, t0.kanban_column_id = some "col-unassigned" →
      maxTodoPositionRepo (st ++ [t0]) R = 0 := by
    intro t0 ht0
    rw [maxTodoPositionRepo_append_single, ht0]
    simpa using h6
  have hmax1 : maxTodoPositionRepo
      (st ++ [{ pk := newPk, repo_full_name := some R, ticket_number := S,
                display_id := some D, id := padStart4 S, filename := F,
                title := jsTrim title, body_md := B,
                kanban_column_id := some "col-unassigned", kanban_position := 0,
                kanban_moved_at := now }]) R = 0 := hmax _ rfl
  refine ⟨updateTicketByRepoNumber
      (st ++ [{ pk := newPk, repo_full_name := some R, ticket_number := S,
                display_id := some D, id := padStart4 S, filename := F,
                title := jsTrim title, body_md := B,
                kanban_column_id := some "col-unassigned", kanban_position := 0,
                kanban_moved_at := now }]) R S
      (fun t => { t with kanban_column_id := some "col-todo", kanban_position := 1,
                         kanban_moved_at := now }), ?_, ?_, ?_⟩
  · unfold create_ticket
    rw [show List.range' 1 MAX_CREATE_TICKET_RETRIES = 1 :: List.range' 2 9 from rfl]
    unfold createTicketAttemptGo
    simp only [h0, List.isEmpty_nil, Bool.not_true, Bool.false_eq_true, if_false,
      Nat.add_sub_cancel, hR, hS, hD, hB, hF]
    simp only [h1, List.isEmpty_nil, Bool.not_true, Bool.false_eq_true, if_false, h2, h3,
      if_true, h4, hS0, Bool.and_self, Bool.true_and]
    simp only [hmax1]
    simp [h3]
  · intro t ht hpk
    unfold updateTicketByRepoNumber at ht
    obtain ⟨u, hu, rfl⟩ := List.mem_map.mp ht
    have hupk : u.pk = newPk := by
      by_cases hc : (u.repo_full_name == some R && u.ticket_number == S) = true
      · simpa [hc] using hpk
      · simpa [hc] using hpk
    rcases List.mem_append.mp hu with h | h
    · exact absurd hupk (h7 u h)
    · have h' := List.mem_singleton.mp h
      subst h'
      simp
  · refine ⟨{ pk := newPk, repo_full_name := some R, ticket_number := S,
              display_id := some D, id := padStart4 S, filename := F,
              title := jsTrim title, body_md := B,
              kanban_column_id := some "col-todo", kanban_position := 1,
              kanban_moved_at := now }, ?_, rfl⟩
    unfold updateTicketByRepoNumber
    refine List.mem_map.mpr ⟨{ pk := newPk, repo_full_name := some R, ticket_number := S,
                               display_id := some D, id := padStart4 S, filename := F,
                               title := jsTrim title, body_md := B,
                               kanban_column_id := some "col-unassigned", kanban_position := 0,
                               kanban_moved_at := now }, List.mem_append_right st (by simp), ?_⟩
    simp

/-- Witness for C5's amended theorem at the concrete "Fix login" scenario on
an empty store. -/
theorem create_ticket_ready_empty_todo_witness :
    ∃ stOut,
      create_ticket [] (some "owner/repo") "Fix login"
          "## Goal (one sentence)\nShip login\n\n## Human-verifiable deliverable (UI-only)\nLogin button works\n\n## Acceptance criteria (UI-only)\n- [ ] Works\n\n## Constraints\nNone\n\n## Non-goals\nNone"
          "T0" 100 =
        (.ok { id := "0001", display_id := "REPO-0001", ticket_number := 1,
               repo_full_name := "owner/repo", filename := "0001-fix-login.md",
               filePath := "supabase:tickets/REPO-0001", retried := false, attempts := 1,
               ready := true, missingItems := [], autoFixed := false, movedToTodo := true,
               moveError := none }, stOut)
      ∧ (∀ t ∈ stOut, t.pk = 100 →
          t.kanban_column_id = some "col-todo" ∧ t.kanban_position = 1)
      ∧ (∃ t ∈ stOut, t.pk = 100) :=
  create_ticket_ready_empty_todo [] (some "owner/repo") "Fix login"
    "## Goal (one sentence)\nShip login\n\n## Human-verifiable deliverable (UI-only)\nLogin button works\n\n## Acceptance criteria (UI-only)\n- [ ] Works\n\n## Constraints\nNone\n\n## Non-goals\nNone"
    "T0" 100 "owner/repo" 1 "REPO-0001"
    "## Goal (one sentence)\nShip login\n\n## Human-verifiable deliverable (UI-only)\nLogin button works\n\n## Acceptance criteria (UI-only)\n- [ ] Works\n\n## Constraints\nNone\n\n## Non-goals\nNone"
    "0001-fix-login.md"
    rfl rfl rfl rfl rfl rfl rfl rfl rfl rfl rfl rfl (by simp)

/-! ## C7: redactor -/

/-- A scan for a pattern match at any position (used to state "the string
contains an OpenAI-key-shaped substring"). -/
def hasMatchScan (m : Char → List Char → Option Nat) : List Char → Bool
  | [] => false
  | c :: rest => (m c rest).isSome || hasMatchScan m rest

theorem isPrefixOf_self_append : ∀ (p z : List Char), p.isPrefixOf (p ++ z) = true := by
  intro p
  induction p with
  | nil => intro z; simp [List.isPrefixOf]
  | cons a p ih => intro z; simp [List.isPrefixOf, ih]

theorem hasSubstrGo_of_isPrefixOf {p cs : List Char} (h : p.isPrefixOf cs = true) :
    hasSubstrGo p cs = true := by
  cases cs with
  | nil =>
      cases p with
      | nil => rfl
      | cons a q => simp [List.isPrefixOf] at h
  | cons c rest => simp [hasSubstrGo, h]

/-- Characters inside the replacement placeholder never start a match of a
matcher satisfying the `no-start` hypothesis, so such a prefix survives a
replacement pass. -/
theorem replaceAllF_prefix_preserved (m : Char → List Char → Option Nat) :
    ∀ (fuel : Nat) (p cs : List Char), (∀ ch ∈ p, ∀ r, m ch r = none) →
      cs.length ≤ fuel → p.isPrefixOf cs = true →
      p.isPrefixOf (replaceAllF m fuel cs) = true := by
  intro fuel
  induction fuel with
  | zero =>
      intro p cs _ hlen hpre
      have hnil : cs = [] := List.eq_nil_of_length_eq_zero (Nat.le_zero.mp hlen)
      subst hnil
      cases p with
      | nil => simp [List.isPrefixOf]
      | cons a q => simp [List.isPrefixOf] at hpre
  | succ fuel ih =>
      intro p cs hnostart hlen hpre
      cases p with
      | nil => simp [List.isPrefixOf]
      | cons a q =>
          cases cs with
          | nil => simp [List.isPrefixOf] at hpre
          | cons c rest =>
              simp only [List.isPrefixOf, Bool.and_eq_true, beq_iff_eq] at hpre
              obtain ⟨hac, hq⟩ := hpre
              subst hac
              have hnone := hnostart a (List.mem_cons_self a q) rest
              simp only [replaceAllF, hnone]
              simp only [List.isPrefixOf, beq_self_eq_true, Bool.true_and]
              refine ih q rest (fun ch hch r => hnostart ch (List.mem_cons_of_mem a hch) r)
                ?_ hq
              simpa using Nat.le_of_succ_le_succ (by simpa using hlen)

/-- A pass whose matcher fires somewhere emits the placeholder. -/
theorem replaceAllF_emits (m : Char → List Char → Option Nat) :
    ∀ (fuel : Nat) (cs : List Char), cs.length ≤ fuel → hasMatchScan m cs = true →
      hasSubstrGo ("[REDACTED]".toList) (replaceAllF m fuel cs) = true := by
  intro fuel
  induction fuel with
  | zero =>
      intro cs hlen hscan
      have hnil : cs = [] := List.eq_nil_of_length_eq_zero (Nat.le_zero.mp hlen)
      subst hnil
      simp [hasMatchScan] at hscan
  | succ fuel ih =>
      intro cs hlen hscan
      cases cs with
      | nil => simp [hasMatchScan] at hscan
      | cons c rest =>
          cases hm : m c rest with
          | some n =>
              simp only [replaceAllF, hm]
              exact hasSubstrGo_of_isPrefixOf (isPrefixOf_self_append _ _)
          | none =>
              have hscan' : hasMatchScan m rest = true := by
                simpa [hasMatchScan, hm] using hscan
              simp only [replaceAllF, hm, hasSubstrGo]
              rw [ih rest (by simpa using Nat.le_of_succ_le_succ (by simpa using hlen)) hscan']
              simp

/-- A pass whose matcher never starts inside the placeholder keeps every
occurrence of the placeholder. -/
theorem replaceAllF_keeps_substr (m : Char → List Char → Option Nat)
    (hnostart : ∀ ch ∈ ("[REDACTED]".toList), ∀ r, m ch r = none) :
    ∀ (fuel : Nat) (cs : List Char), cs.length ≤ fuel →
      hasSubstrGo ("[REDACTED]".toList) cs = true →
      hasSubstrGo ("[REDACTED]".toList) (replaceAllF m fuel cs) = true := by
  intro fuel
  induction fuel with
  | zero =>
      intro cs hlen hsub
      have hnil : cs = [] := List.eq_nil_of_length_eq_zero (Nat.le_zero.mp hlen)
      subst hnil
      simp [hasSubstrGo] at hsub
  | succ fuel ih =>
      intro cs hlen hsub
      cases cs with
      | nil => simp [hasSubstrGo] at hsub
      | cons c rest =>
          have hlen' : rest.length ≤ fuel := by
            simpa using Nat.le_of_succ_le_succ (by simpa using hlen)
          cases hm : m c rest with
          | some n =>
              simp only [replaceAllF, hm]
              exact hasSubstrGo_of_isPrefixOf (isPrefixOf_self_append _ _)
          | none =>
              have hsub' : ("[REDACTED]".toList).isPrefixOf (c :: rest) = true ∨
                  hasSubstrGo ("[REDACTED]".toList) rest = true := by
                have h0 := hsub
                simp only [hasSubstrGo] at h0
                exact Bool.or_eq_true_iff.mp h0
              rcases hsub' with hp | hr
              · have hkeep := replaceAllF_prefix_preserved m (fuel + 1)
                  ("[REDACTED]".toList) (c :: rest) hnostart (by simpa using hlen) hp
                rw [show replaceAllF m (fuel + 1) (c :: rest) =
                    c :: replaceAllF m fuel rest from by simp [replaceAllF, hm]] at hkeep
                simp only [replaceAllF, hm, hasSubstrGo]
                rw [hkeep]
                simp
              · simp only [replaceAllF, hm, hasSubstrGo]
                rw [ih rest hlen' hr]
                simp

theorem jwtMatch_no_redacted_start :
    ∀ ch ∈ ("[REDACTED]".toList), ∀ r, jwtMatch ch r = none := by
  intro ch hch r
  fin_cases hch <;> rfl

theorem supabaseMatch_no_redacted_start :
    ∀ ch ∈ ("[REDACTED]".toList), ∀ r, supabaseMatch ch r = none := by
  intro ch hch r
  fin_cases hch <;> rfl

/-- C7 counterexample: an object entry with the sensitive key `token` but an
*object* value is not replaced by the placeholder (the key test only applies
to string values): the claim demands `[REDACTED]` regardless of shape. -/
theorem redact_token_object_cex :
    redact (.obj [("token", .obj [("a", .str "x")])]) =
      .obj [("token", .obj [("a", .str "x")])]
    ∧ redact (.obj [("token", .obj [("a", .str "x")])]) ≠
      .obj [("token", .str "[REDACTED]")] := by
  have h : redact (.obj [("token", .obj [("a", .str "x")])]) =
      .obj [("token", .obj [("a", .str "x")])] := by
    simp [redact, redactValue, redactJsonFields, redactJsonList, sensitiveKeyTest, redactString]
    rfl
  refine ⟨h, ?_⟩
  rw [h]
  intro hcontra
  simp at hcontra

/-- C7 amended: an object entry whose key matches the reserved secret-name
pattern has its value replaced by `[REDACTED]` *when the value is a string*
(non-string values are traversed recursively instead, with only their nested
strings pattern-redacted); and any string containing an `sk-` token (`sk-`
followed by 20 or more key characters, which covers `sk-` plus 25
alphanumerics) is redacted so that the output contains `[REDACTED]` — the
OpenAI-key pass emits the placeholder and the later JWT and Supabase-URL
passes never touch it.  The embedding is a pure function, so the input value
is not mutated. -/
theorem redact_sensitive_and_skpattern (k s : String) (v : JsonValue)
    (fields : List (String × JsonValue)) :
    (sensitiveKeyTest k = true → k ≠ "" →
      redactValue (some k) (.str s) = .str "[REDACTED]")
    ∧ ((k, v) ∈ fields → v = .str s → sensitiveKeyTest k = true → k ≠ "" →
        (k, JsonValue.str "[REDACTED]") ∈ redactJsonFields fields)
    ∧ (hasMatchScan openaiKeyMatch s.toList = true →
        hasSubstr (redactString s) "[REDACTED]" = true) := by
  refine ⟨?_, ?_, ?_⟩
  · intro hk hne
    have hne' : (k != "") = true := by
      simpa using hne
    simp [redactValue, hne', hk]
  · intro hmem hv hk hne
    subst hv
    induction fields with
    | nil => simp at hmem
    | cons p rest ih =>
        rcases List.mem_cons.mp hmem with h | h
        · subst h
          have hne' : (k != "") = true := by simpa using hne
          simp [redactJsonFields, redactValue, hne', hk]
        · cases p with
          | mk k0 v0 =>
              simp only [redactJsonFields]
              exact List.mem_cons_of_mem _ (ih h)
  · intro hscan
    have h1 : hasSubstrGo ("[REDACTED]".toList)
        (replaceAllF openaiKeyMatch s.toList.length s.toList) = true :=
      replaceAllF_emits openaiKeyMatch s.toList.length s.toList (Nat.le_refl _) hscan
    have h2 : hasSubstrGo ("[REDACTED]".toList)
        (replaceAllWith jwtMatch (replaceAllWith openaiKeyMatch s.toList)) = true := by
      unfold replaceAllWith
      exact replaceAllF_keeps_substr jwtMatch jwtMatch_no_redacted_start _ _ (Nat.le_refl _) h1
    have h3 : hasSubstrGo ("[REDACTED]".toList)
        (replaceAllWith supabaseMatch
          (replaceAllWith jwtMatch (replaceAllWith openaiKeyMatch s.toList))) = true := by
      unfold replaceAllWith
      exact replaceAllF_keeps_substr supabaseMatch supabaseMatch_no_redacted_start _ _
        (Nat.le_refl _) h2
    unfold hasSubstr redactString
    simpa using h3

/-- Witness for C7's amended theorem: a sensitive `token` entry with string
value is replaced, and a string holding `sk-` plus 25 alphanumerics redacts to
something containing the placeholder. -/
theorem redact_sensitive_and_skpattern_witness :
    redactValue (some "token") (.str "whatever") = .str "[REDACTED]"
    ∧ hasSubstr (redactString "key sk-abcdefghijklmnopqrstuvwxy end") "[REDACTED]" = true := by
  constructor
  · exact (redact_sensitive_and_skpattern "token" "whatever" (.str "whatever") []).1 rfl
      (by decide)
  · exact (redact_sensitive_and_skpattern "token"
      "key sk-abcdefghijklmnopqrstuvwxy end" (.str "x") []).2.2 rfl

/-! ## C8: conversation character budget -/

/-- Combined rendered length of a turn list. -/
def renderedTotal (ts : List ConversationTurn) : Nat := (ts.map renderedLen).sum

theorem recentTurnsAux_shape (maxChars : Nat) :
    ∀ (rev : List ConversationTurn) (len : Nat) (recent : List ConversationTurn),
      ∃ k, recentTurnsAux maxChars rev len recent = (rev.take k).reverse ++ recent := by
  intro rev
  induction rev with
  | nil => intro len recent; exact ⟨0, rfl⟩
  | cons t rest ih =>
      intro len recent
      by_cases hbr : (maxChars < len + renderedLen t && recent.length != 0) = true
      · refine ⟨0, ?_⟩
        unfold recentTurnsAux
        simp only [hbr, if_true]
        rfl
      · obtain ⟨k, hk⟩ := ih (len + renderedLen t) (t :: recent)
        refine ⟨k + 1, ?_⟩
        unfold recentTurnsAux
        simp only [hbr, if_false]
        rw [hk]
        simp [List.take_succ_cons]

theorem recentTurnsAux_total (maxChars : Nat) :
    ∀ (rev : List ConversationTurn) (len : Nat) (recent : List ConversationTurn),
      len = renderedTotal recent →
      (2 ≤ recent.length → len ≤ maxChars) →
      (2 ≤ (recentTurnsAux maxChars rev len recent).length →
        renderedTotal (recentTurnsAux maxChars rev len recent) ≤ maxChars) := by
  intro rev
  induction rev with
  | nil =>
      intro len recent hlen hinv h2
      unfold recentTurnsAux at h2 ⊢
      rw [← hlen]
      exact hinv h2
  | cons t rest ih =>
      intro len recent hlen hinv
      by_cases hbr : (decide (maxChars < len + renderedLen t) && (recent.length != 0)) = true
      · intro h2
        unfold recentTurnsAux at h2 ⊢
        simp only [hbr, if_true] at h2 ⊢
        rw [← hlen]
        exact hinv h2
      · have hbr' : (decide (maxChars < len + renderedLen t) && (recent.length != 0)) = false :=
          Bool.not_eq_true _ ▸ (by simpa using hbr)
        unfold recentTurnsAux
        simp only [hbr', Bool.false_eq_true, if_false]
        refine ih (len + renderedLen t) (t :: recent) ?_ ?_
        · simp only [renderedTotal, List.map_cons, List.sum_cons]
          rw [hlen]
          simp [renderedTotal]
          omega
        · intro h2
          rcases Bool.and_eq_false_iff.mp hbr' with hle | hrec
          · exact Nat.le_of_not_lt (of_decide_eq_false hle)
          · have hr : recent = [] := by simpa using hrec
            subst hr
            simp at h2

theorem recentTurnsAux_maximal (maxChars : Nat) :
    ∀ (rev : List ConversationTurn) (len : Nat) (recent turns : List ConversationTurn),
      len = renderedTotal recent →
      turns = rev.reverse ++ recent →
      (recentTurnsAux maxChars rev len recent).length < turns.length →
      maxChars < renderedTotal
        (turns.drop (turns.length - (recentTurnsAux maxChars rev len recent).length - 1)) := by
  intro rev
  induction rev with
  | nil =>
      intro len recent turns hlen hturns hshort
      unfold recentTurnsAux at hshort
      rw [hturns] at hshort
      simp at hshort
  | cons t rest ih =>
      intro len recent turns hlen hturns hshort
      by_cases hbr : (decide (maxChars < len + renderedLen t) && (recent.length != 0)) = true
      · unfold recentTurnsAux at hshort ⊢
        simp only [hbr, if_true] at hshort ⊢
        have hlt : maxChars < len + renderedLen t := by
          have hbr2 := hbr
          rw [Bool.and_eq_true] at hbr2
          exact of_decide_eq_true hbr2.1
        have hT : turns = rest.reverse ++ ([t] ++ recent) := by
          rw [hturns]; simp
        have hidx : turns.length - recent.length - 1 = rest.reverse.length := by
          rw [hT]; simp; omega
        rw [hidx, hT]
        rw [List.drop_left]
        simp only [List.cons_append, List.nil_append, renderedTotal, List.map_cons,
          List.sum_cons]
        rw [hlen] at hlt
        simp only [renderedTotal] at hlt
        omega
      · have hbr' : (decide (maxChars < len + renderedLen t) && (recent.length != 0)) = false :=
          Bool.not_eq_true _ ▸ (by simpa using hbr)
        unfold recentTurnsAux at hshort ⊢
        simp only [hbr', Bool.false_eq_true, if_false] at hshort ⊢
        refine ih (len + renderedLen t) (t :: recent) turns ?_ ?_ hshort
        · simp only [renderedTotal, List.map_cons, List.sum_cons]
          rw [hlen]
          simp [renderedTotal]
          omega
        · rw [hturns]; simp

theorem recentTurns_nonempty (turns : List ConversationTurn) (maxChars : Nat)
    (h : turns ≠ []) : (recentTurnsWithinCharBudget turns maxChars).1 ≠ [] := by
  unfold recentTurnsWithinCharBudget
  have hT : turns.isEmpty = false := by
    cases turns with
    | nil => exact absurd rfl h
    | cons a b => rfl
  simp only [hT, Bool.false_eq_true, if_false]
  obtain ⟨t, rest, hrev⟩ : ∃ t rest, turns.reverse = t :: rest := by
    cases hR : turns.reverse with
    | nil =>
        have : turns = [] := by simpa using congrArg List.reverse hR
        exact absurd this h
    | cons a b => exact ⟨a, b, rfl⟩
  rw [hrev]
  unfold recentTurnsAux
  simp only [List.length_nil, bne_self_eq_false, Bool.and_false, Bool.false_eq_true, if_false]
  obtain ⟨k, hk⟩ := recentTurnsAux_shape maxChars rest (0 + renderedLen t) [t]
  rw [hk]
  simp

theorem toList_append (a b : String) : (a ++ b).toList = a.toList ++ b.toList :=
  String.data_append a b

theorem hasSubstrGo_append_left (p : List Char) :
    ∀ (x cs : List Char), hasSubstrGo p cs = true → hasSubstrGo p (x ++ cs) = true := by
  intro x
  induction x with
  | nil => intro cs h; simpa using h
  | cons a x ih =>
      intro cs h
      have hih := ih cs h
      simp only [List.cons_append, hasSubstrGo, List.append_eq]
      rw [hih]
      simp

/-- A single-turn history is always selected in full, with no omissions,
whatever its rendered length: the accumulation loop never drops the first
(most recent) turn. -/
theorem recentTurns_single (t : ConversationTurn) (maxChars : Nat) :
    recentTurnsWithinCharBudget [t] maxChars = ([t], 0) := by
  unfold recentTurnsWithinCharBudget
  simp only [List.isEmpty_cons, Bool.false_eq_true, if_false, List.reverse_cons,
    List.reverse_nil, List.nil_append]
  unfold recentTurnsAux
  simp only [List.length_nil, bne_self_eq_false, Bool.and_false, Bool.false_eq_true, if_false]
  unfold recentTurnsAux
  rfl

/-- C8 counterexample: with a single prior turn whose content is 12,100
characters, the selected suffix is that whole turn although its rendered
length (12,116) exceeds the 12,000-character budget — the most recent turn is
always included, so the claim's "combined rendered length stays under the
budget" fails; and no omission note is emitted (omitted = 0). -/
theorem recentTurns_overBudget_cex :
    recentTurnsWithinCharBudget
        [⟨"user", String.mk (List.replicate 12100 'a')⟩] CONVERSATION_RECENT_MAX_CHARS =
      ([⟨"user", String.mk (List.replicate 12100 'a')⟩], 0)
    ∧ CONVERSATION_RECENT_MAX_CHARS <
        renderedLen ⟨"user", String.mk (List.replicate 12100 'a')⟩ := by
  constructor
  · exact recentTurns_single _ _
  · have h1 : (String.mk (List.replicate 12100 'a')).length
        = (List.replicate 12100 'a').length := rfl
    unfold CONVERSATION_RECENT_MAX_CHARS renderedLen
    rw [h1, List.length_replicate]
    decide

/-- C8 amended: the selection is a suffix of the history with
`omitted = length - selected`; it is non-empty whenever the history is; its
combined rendered length stays within the budget whenever it holds at least
two turns (a lone most-recent turn may exceed the budget); it is maximal (one
more older turn would exceed the budget); and the conversation section built
from a non-empty history is the header plus the note "(older messages
omitted; showing recent conversation within 12,000 characters)" exactly when
at least one turn was dropped (a plain blank-line separator otherwise; the
number of omitted turns is not shown) plus the rendered turns — in
particular the note text occurs in the section whenever a turn was
dropped. -/
theorem conversationBudget_spec (turns history : List ConversationTurn) (maxChars : Nat) :
    (recentTurnsWithinCharBudget turns maxChars).1 <:+ turns
    ∧ (recentTurnsWithinCharBudget turns maxChars).2 =
        turns.length - (recentTurnsWithinCharBudget turns maxChars).1.length
    ∧ (turns ≠ [] → (recentTurnsWithinCharBudget turns maxChars).1 ≠ [])
    ∧ (2 ≤ (recentTurnsWithinCharBudget turns maxChars).1.length →
        renderedTotal (recentTurnsWithinCharBudget turns maxChars).1 ≤ maxChars)
    ∧ ((recentTurnsWithinCharBudget turns maxChars).1.length < turns.length →
        maxChars < renderedTotal (turns.drop
          (turns.length - (recentTurnsWithinCharBudget turns maxChars).1.length - 1)))
    ∧ (history ≠ [] → conversationSection history =
        some ("## Conversation so far" ++
          (if 0 < (recentTurnsWithinCharBudget history CONVERSATION_RECENT_MAX_CHARS).2 then
            "\n(older messages omitted; showing recent conversation within 12,000 characters)\n\n"
          else "\n\n") ++
          String.intercalate "\n\n"
            ((recentTurnsWithinCharBudget history CONVERSATION_RECENT_MAX_CHARS).1.map
              (fun t => "**" ++ t.role ++ "**: " ++ t.content))))
    ∧ (history ≠ [] →
        0 < (recentTurnsWithinCharBudget history CONVERSATION_RECENT_MAX_CHARS).2 →
        ∃ s, conversationSection history = some s ∧
          hasSubstr s
            "\n(older messages omitted; showing recent conversation within 12,000 characters)\n\n"
            = true) := by
  have hsection : history ≠ [] → conversationSection history =
      some ("## Conversation so far" ++
        (if 0 < (recentTurnsWithinCharBudget history CONVERSATION_RECENT_MAX_CHARS).2 then
          "\n(older messages omitted; showing recent conversation within 12,000 characters)\n\n"
        else "\n\n") ++
        String.intercalate "\n\n"
          ((recentTurnsWithinCharBudget history CONVERSATION_RECENT_MAX_CHARS).1.map
            (fun t => "**" ++ t.role ++ "**: " ++ t.content))) := by
    intro h
    have hT : history.isEmpty = false := by
      cases history with
      | nil => exact absurd rfl h
      | cons a b => rfl
    unfold conversationSection
    simp only [hT, Bool.false_eq_true, if_false]
  refine ⟨?_, ?_, recentTurns_nonempty turns maxChars, ?_, ?_, hsection, ?_⟩
  · by_cases hT : turns.isEmpty = true
    · have : turns = [] := by simpa using hT
      subst this
      simp [recentTurnsWithinCharBudget]
    · have hT' : turns.isEmpty = false := by simpa using hT
      unfold recentTurnsWithinCharBudget
      simp only [hT', Bool.false_eq_true, if_false]
      obtain ⟨k, hk⟩ := recentTurnsAux_shape maxChars turns.reverse 0 []
      rw [hk]
      simp only [List.append_nil]
      have := List.reverse_suffix.mpr (List.take_prefix k turns.reverse)
      simpa using this
  · by_cases hT : turns.isEmpty = true
    · have : turns = [] := by simpa using hT
      subst this
      simp [recentTurnsWithinCharBudget]
    · have hT' : turns.isEmpty = false := by simpa using hT
      unfold recentTurnsWithinCharBudget
      simp [hT']
  · intro h2
    by_cases hT : turns.isEmpty = true
    · have : turns = [] := by simpa using hT
      subst this
      simp [recentTurnsWithinCharBudget] at h2
    · have hT' : turns.isEmpty = false := by simpa using hT
      unfold recentTurnsWithinCharBudget at h2 ⊢
      simp only [hT', Bool.false_eq_true, if_false] at h2 ⊢
      exact recentTurnsAux_total maxChars turns.reverse 0 [] rfl (by intro hc; simp at hc) h2
  · intro hshort
    by_cases hT : turns.isEmpty = true
    · have : turns = [] := by simpa using hT
      subst this
      simp [recentTurnsWithinCharBudget] at hshort
    · have hT' : turns.isEmpty = false := by simpa using hT
      unfold recentTurnsWithinCharBudget at hshort ⊢
      simp only [hT', Bool.false_eq_true, if_false] at hshort ⊢
      exact recentTurnsAux_maximal maxChars turns.reverse 0 [] turns rfl (by simp) hshort
  · intro h homit
    refine ⟨_, hsection h, ?_⟩
    unfold hasSubstr
    rw [if_pos homit]
    rw [toList_append, toList_append]
    rw [List.append_assoc]
    refine hasSubstrGo_append_left _ _ _ ?_
    exact hasSubstrGo_of_isPrefixOf (isPrefixOf_self_append _ _)

/-- Witness for C8's amended theorem: two short turns are all kept with no
omission, and applying the theorem to a long history shows the note. -/
theorem conversationBudget_spec_witness :
    (recentTurnsWithinCharBudget [⟨"user", "hello"⟩, ⟨"assistant", "hi"⟩] 12000).1 <:+
      [⟨"user", "hello"⟩, ⟨"assistant", "hi"⟩]
    ∧ renderedTotal (recentTurnsWithinCharBudget
        [⟨"user", "hello"⟩, ⟨"assistant", "hi"⟩] 12000).1 ≤ 12000
    ∧ conversationSection [⟨"user", "hello"⟩] =
        some ("## Conversation so far" ++ "\n\n" ++ "**user**: hello") := by
  refine ⟨(conversationBudget_spec [⟨"user", "hello"⟩, ⟨"assistant", "hi"⟩] [] 12000).1, ?_, ?_⟩
  · exact (conversationBudget_spec [⟨"user", "hello"⟩, ⟨"assistant", "hi"⟩] [] 12000).2.2.2.1
      (by decide)
  · have h := (conversationBudget_spec [] [⟨"user", "hello"⟩] 12000).2.2.2.2.2.1
      (by decide)
    simpa using h

/-- C9 counterexample: with two successful create_ticket records in the Tool
Call Record — first TKT-0001, then TKT-0002 (the most recent) — the fallback
reply describes TKT-0001: each probe takes the FIRST matching record in call
order, not the most recent one. -/
theorem fallback_mostRecent_cex :
    fallbackReply
        [⟨"create_ticket",
          { id := some "TKT-0001", filePath := some "a.md", success := some true }⟩,
         ⟨"create_ticket",
          { id := some "TKT-0002", filePath := some "b.md", success := some true }⟩] =
      renderCreateOk
        { id := some "TKT-0001", filePath := some "a.md", success := some true }
    ∧ isCreateOkRec
        ⟨"create_ticket",
          { id := some "TKT-0002", filePath := some "b.md", success := some true }⟩ = true
    ∧ ("TKT-0001" : String) ≠ "TKT-0002" :=
  ⟨rfl, rfl, by decide⟩

/-- C9 amended: the reply of a successful turn is a pure function of the model
text and the turn's Tool Call Record; the fallback fires exactly when the
trimmed model text is empty (hence also on whitespace-only text); the chain
probes in a fixed priority order and each probe takes the FIRST matching
record in call order: if no record of `pre` matches the first three probes,
`c` is a successful creation not matching the two placeholder-rejection
probes, and no record of `post` matches those rejection probes, the reply
describes `c` — whatever further successful creations the more recent calls
in `post` hold — while a non-blank model text is returned verbatim. -/
theorem fallback_reply_spec (modelText : String) (pre post : List ToolCallRecord)
    (c : ToolCallRecord)
    (hblank : (jsTrim modelText).isEmpty = true)
    (hpre : ∀ x ∈ pre, isCreateRejectedRec x = false ∧ isUpdateRejectedRec x = false ∧
      isCreateOkRec x = false)
    (hpost : ∀ x ∈ post, isCreateRejectedRec x = false ∧ isUpdateRejectedRec x = false)
    (hc1 : isCreateRejectedRec c = false) (hc2 : isUpdateRejectedRec c = false)
    (hc3 : isCreateOkRec c = true) :
    pmReplyWithFallback modelText (pre ++ c :: post) = renderCreateOk c.output
    ∧ ∀ s : String, (jsTrim s).isEmpty = false →
        pmReplyWithFallback s (pre ++ c :: post) = s := by
  constructor
  · unfold pmReplyWithFallback
    simp only [hblank, if_true]
    unfold fallbackReply
    have h1 : (pre ++ c :: post).find? isCreateRejectedRec = none := by
      rw [List.find?_eq_none]
      intro x hx
      rcases List.mem_append.mp hx with hx | hx
      · simp [(hpre x hx).1]
      · rcases List.mem_cons.mp hx with rfl | hx
        · simp [hc1]
        · simp [(hpost x hx).1]
    have h2 : (pre ++ c :: post).find? isUpdateRejectedRec = none := by
      rw [List.find?_eq_none]
      intro x hx
      rcases List.mem_append.mp hx with hx | hx
      · simp [(hpre x hx).2.1]
      · rcases List.mem_cons.mp hx with rfl | hx
        · simp [hc2]
        · simp [(hpost x hx).2]
    have hpre3 : pre.find? isCreateOkRec = none := by
      rw [List.find?_eq_none]
      intro x hx
      simp [(hpre x hx).2.2]
    have h3 : (pre ++ c :: post).find? isCreateOkRec = some c := by
      rw [List.find?_append, hpre3]
      simp [List.find?_cons, hc3]
    rw [h1, h2, h3]
  · intro s hs
    unfold pmReplyWithFallback
    simp [hs]

theorem fallback_reply_spec_witness :
    (jsTrim " \n\t ").isEmpty = true
    ∧ (pmReplyWithFallback " \n\t "
          ([⟨"sync_tickets", { success := some true }⟩] ++
            ⟨"create_ticket",
              { id := some "TKT-0007", filePath := some "t.md", success := some true }⟩ ::
            [⟨"create_ticket",
              { id := some "TKT-0008", filePath := some "u.md", success := some true }⟩]) =
        renderCreateOk
          { id := some "TKT-0007", filePath := some "t.md", success := some true }
      ∧ ∀ s : String, (jsTrim s).isEmpty = false →
          pmReplyWithFallback s
              ([⟨"sync_tickets", { success := some true }⟩] ++
                ⟨"create_ticket",
                  { id := some "TKT-0007", filePath := some "t.md",
                    success := some true }⟩ ::
                [⟨"create_ticket",
                  { id := some "TKT-0008", filePath := some "u.md",
                    success := some true }⟩]) = s) :=
  ⟨by decide,
   fallback_reply_spec " \n\t " _ _ _ (by decide) (by decide) (by decide)
     (by decide) (by decide) (by decide)⟩

end Hal
